import Mathlib

namespace Granary

/-- A JSON-representable Python value, the data model both AS1 objects and
MF2 items live in (spec section 6: string/number/bool/sequence/mapping/null
leaves only).  Python dicts are insertion-ordered association lists. -/
inductive JVal where
  | null
  | bool (b : Bool)
  | int (n : Int)
  | str (s : String)
  | arr (xs : List JVal)
  | obj (kvs : List (String × JVal))
  deriving Repr, Inhabited

mutual

def JVal.decEq : (a b : JVal) → Decidable (a = b)
  | .null, .null => isTrue rfl
  | .null, .bool _ => isFalse (by simp)
  | .null, .int _ => isFalse (by simp)
  | .null, .str _ => isFalse (by simp)
  | .null, .arr _ => isFalse (by simp)
  | .null, .obj _ => isFalse (by simp)
  | .bool _, .null => isFalse (by simp)
  | .bool a, .bool b =>
      if h : a = b then isTrue (by rw [h]) else isFalse (by simp [h])
  | .bool _, .int _ => isFalse (by simp)
  | .bool _, .str _ => isFalse (by simp)
  | .bool _, .arr _ => isFalse (by simp)
  | .bool _, .obj _ => isFalse (by simp)
  | .int _, .null => isFalse (by simp)
  | .int _, .bool _ => isFalse (by simp)
  | .int a, .int b =>
      if h : a = b then isTrue (by rw [h]) else isFalse (by simp [h])
  | .int _, .str _ => isFalse (by simp)
  | .int _, .arr _ => isFalse (by simp)
  | .int _, .obj _ => isFalse (by simp)
  | .str _, .null => isFalse (by simp)
  | .str _, .bool _ => isFalse (by simp)
  | .str _, .int _ => isFalse (by simp)
  | .str a, .str b =>
      if h : a = b then isTrue (by rw [h]) else isFalse (by simp [h])
  | .str _, .arr _ => isFalse (by simp)
  | .str _, .obj _ => isFalse (by simp)
  | .arr _, .null => isFalse (by simp)
  | .arr _, .bool _ => isFalse (by simp)
  | .arr _, .int _ => isFalse (by simp)
  | .arr _, .str _ => isFalse (by simp)
  | .arr xs, .arr ys =>
      match JVal.decEqList xs ys with
      | isTrue h => isTrue (by rw [h])
      | isFalse h => isFalse (by simp [h])
  | .arr _, .obj _ => isFalse (by simp)
  | .obj _, .null => isFalse (by simp)
  | .obj _, .bool _ => isFalse (by simp)
  | .obj _, .int _ => isFalse (by simp)
  | .obj _, .str _ => isFalse (by simp)
  | .obj _, .arr _ => isFalse (by simp)
  | .obj xs, .obj ys =>
      match JVal.decEqKVs xs ys with
      | isTrue h => isTrue (by rw [h])
      | isFalse h => isFalse (by simp [h])

def JVal.decEqList : (xs ys : List JVal) → Decidable (xs = ys)
  | [], [] => isTrue rfl
  | [], _ :: _ => isFalse (by simp)
  | _ :: _, [] => isFalse (by simp)
  | x :: xs, y :: ys =>
      match JVal.decEq x y, JVal.decEqList xs ys with
      | isTrue h1, isTrue h2 => isTrue (by rw [h1, h2])
      | isFalse h1, _ => isFalse (by simp [h1])
      | _, isFalse h2 => isFalse (by simp [h2])

def JVal.decEqKVs : (xs ys : List (String × JVal)) → Decidable (xs = ys)
  | [], [] => isTrue rfl
  | [], _ :: _ => isFalse (by simp)
  | _ :: _, [] => isFalse (by simp)
  | (k1, v1) :: xs, (k2, v2) :: ys =>
      if hk : k1 = k2 then
        match JVal.decEq v1 v2, JVal.decEqKVs xs ys with
        | isTrue h1, isTrue h2 => isTrue (by rw [hk, h1, h2])
        | isFalse h1, _ => isFalse (by simp [h1])
        | _, isFalse h2 => isFalse (by simp [h2])
      else isFalse (by simp [hk])

end

instance : DecidableEq JVal := JVal.decEq

namespace JVal

def isObj : JVal → Bool
  | .obj _ => true
  | _ => false

def isStr : JVal → Bool
  | .str _ => true
  | _ => false

def isArr : JVal → Bool
  | .arr _ => true
  | _ => false

/-- Python truthiness: None, False, 0, empty string/list/dict are falsy. -/
def truthy : JVal → Bool
  | .null => false
  | .bool b => b
  | .int n => n != 0
  | .str s => s ≠ ""
  | .arr xs => !xs.isEmpty
  | .obj kvs => !kvs.isEmpty

/-- Python `d.get(k)`: the value stored under the first matching key, `None`
when missing.  On a non-dict the source would raise AttributeError; the model
returns null, and theorems restrict inputs so this difference is never hit. -/
def dget : JVal → String → JVal
  | .obj kvs, k => ((kvs.find? (fun kv => kv.1 = k)).map Prod.snd).getD .null
  | _, _ => .null

/-- Python `d.get(k, default)`. -/
def dgetD (v : JVal) (k : String) (dflt : JVal) : JVal :=
  match v with
  | .obj kvs => ((kvs.find? (fun kv => kv.1 = k)).map Prod.snd).getD dflt
  | _ => dflt

/-- Python `k in d` for a dict. -/
def dhas : JVal → String → Bool
  | .obj kvs, k => kvs.any (fun kv => kv.1 = k)
  | _, _ => false

/-- Python dict assignment `d[k] = v`: replaces the value in place for an
existing key (keeping its position) and appends a new key at the end. -/
def dsetL (kvs : List (String × JVal)) (k : String) (v : JVal) :
    List (String × JVal) :=
  match kvs with
  | [] => [(k, v)]
  | (k1, v1) :: rest =>
      if k1 = k then (k1, v) :: rest else (k1, v1) :: dsetL rest k v

def dset (d : JVal) (k : String) (v : JVal) : JVal :=
  match d with
  | .obj kvs => .obj (dsetL kvs k v)
  | _ => d

/-- Python `d.pop(k, None)` restricted to its effect on the dict. -/
def dremove (d : JVal) (k : String) : JVal :=
  match d with
  | .obj kvs => .obj (kvs.filter (fun kv => kv.1 ≠ k))
  | _ => d

def keys : JVal → List String
  | .obj kvs => kvs.map Prod.fst
  | _ => []

/-- Python `a or b`. -/
def pyOr (a b : JVal) : JVal := if a.truthy then a else b

/-- Python `a and b`. -/
def pyAnd (a b : JVal) : JVal := if a.truthy then b else a

/-- Python `for x in v` iteration: lists yield elements, strings yield their
characters (as one-character strings), dicts yield their keys.  Other values
are not iterable (TypeError in the source); the model yields nothing there. -/
def pyIterate : JVal → List JVal
  | .arr xs => xs
  | .str s => s.toList.map (fun c => .str (String.singleton c))
  | .obj kvs => kvs.map (fun kv => .str kv.1)
  | _ => []

/-- A value trim_nulls removes: None, empty string, empty list, empty dict. -/
def isNullish : JVal → Bool
  | .null => true
  | .str s => s = ""
  | .arr xs => xs.isEmpty
  | .obj kvs => kvs.isEmpty
  | _ => false

end JVal

open JVal

mutual

/-- Modelled from the spec: null/empty leaves are recursively pruned from
records (spec section 3 invariants); numbers and booleans are kept.  This is
the external `util.trim_nulls` collaborator used throughout the source. -/
def trim_nulls : JVal → JVal
  | .arr xs => .arr (trimNullsList xs)
  | .obj kvs => .obj (trimNullsKVs kvs)
  | v => v

def trimNullsList : List JVal → List JVal
  | [] => []
  | x :: xs =>
      let t := trim_nulls x
      if t.isNullish then trimNullsList xs else t :: trimNullsList xs

def trimNullsKVs : List (String × JVal) → List (String × JVal)
  | [] => []
  | (k, v) :: kvs =>
      let t := trim_nulls v
      if t.isNullish then trimNullsKVs kvs else (k, t) :: trimNullsKVs kvs

end

/-- Modelled from the spec: MF2 property values are sequences; a scalar is a
one-element sequence, a missing or falsy scalar an empty one (external
`util.get_list`). -/
def get_list (v : JVal) (k : String) : List JVal :=
  match v.dget k with
  | .null => []
  | .arr xs => xs
  | w => if w.truthy then [w] else []

/-- Modelled from the spec: first-element extraction from a multiply-valued
property, with an explicit default (external `util.get_first`). -/
def get_first (v : JVal) (k : String) (dflt : JVal) : JVal :=
  match get_list v k with
  | [] => dflt
  | x :: _ => x

/-- The first value of a property value already taken out of the dict, the
way `get_first(props, k, default)` sees it. -/
def firstOfVal (v : JVal) (dflt : JVal) : JVal :=
  match v with
  | .null => dflt
  | .arr [] => dflt
  | .arr (x :: _) => x
  | w => if w.truthy then w else dflt

/-- Modelled from the spec: a media reference is either a bare URL string or
a dict carrying `url` (external `util.get_url`). -/
def get_url (v : JVal) : JVal :=
  match v with
  | .obj _ => v.dget "url"
  | _ => v

def get_url_key (v : JVal) (k : String) : JVal :=
  get_url (get_first v k .null)

/-- Modelled from the spec: all URLs found under a key, null/empty entries
pruned (external `util.get_urls`). -/
def get_urls (v : JVal) (k : String) : List JVal :=
  trimNullsList ((get_list v k).map get_url)

def get_urls_inner (v : JVal) (k inner : String) : List JVal :=
  trimNullsList ((get_list v k).map (fun e => get_url_key e inner))

/-- Modelled from the spec: order-preserving removal of duplicates (external
`util.uniquify`). -/
def uniquifyGo {α : Type} [DecidableEq α] (seen : List α) : List α → List α
  | [] => []
  | x :: rest =>
      if x ∈ seen then uniquifyGo seen rest
      else x :: uniquifyGo (x :: seen) rest

def uniquify {α : Type} [DecidableEq α] (xs : List α) : List α := uniquifyGo [] xs

/-- Modelled from the spec: media URL sequences are de-duplicated by URL,
order-preserving (spec section 4.1; external `util.dedupe_urls`). -/
def dedupe_urls (xs : List JVal) : List JVal :=
  uniquify xs

/-- Python `s.strip()`: whitespace removed from both ends (written over the
character list so that it evaluates inside the kernel). -/
def sTrim (s : String) : String :=
  String.mk (((s.toList.dropWhile Char.isWhitespace).reverse.dropWhile
    Char.isWhitespace).reverse)

/-- The scan of Python `s.replace(pat, rep)` for a non-empty pattern:
left-to-right, non-overlapping.  Each step consumes at least one character,
so `fuel = length of the list` never runs out. -/
def sReplFuel (fuel : Nat) (p r : List Char) (l : List Char) : List Char :=
  match fuel with
  | 0 => l
  | fuel + 1 =>
    match l with
    | [] => []
    | c :: rest =>
        if p.isPrefixOf (c :: rest) then
          r ++ sReplFuel fuel p r ((c :: rest).drop p.length)
        else c :: sReplFuel fuel p r rest

/-- Python `s.replace(pat, rep)`; the source only ever replaces non-empty
patterns, for which the fuelled scan is exact. -/
def sReplace (s pat rep : String) : String :=
  if pat.isEmpty then s
  else String.mk (sReplFuel s.toList.length pat.toList rep.toList s.toList)

/-- Python `s.lower()` over the character list. -/
def sToLower (s : String) : String := String.mk (s.toList.map Char.toLower)

/-- Python `s.startswith(pre)` over the character lists. -/
def sStartsWith (s pre : String) : Bool := pre.toList.isPrefixOf s.toList

/-- Python `s[n:]` for a code-point count over the character list. -/
def sDrop (s : String) (n : Nat) : String := String.mk (s.toList.drop n)

/-- The text before and after the first occurrence of a non-empty pattern,
or `none` when the pattern does not occur.  Same fuel discipline as
`sReplFuel`. -/
def splitFirstFuel (fuel : Nat) (p l : List Char) :
    Option (List Char × List Char) :=
  match fuel with
  | 0 => none
  | fuel + 1 =>
    match l with
    | [] => none
    | c :: rest =>
        if p.isPrefixOf (c :: rest) then some ([], (c :: rest).drop p.length)
        else match splitFirstFuel fuel p rest with
          | some (pre, post) => some (c :: pre, post)
          | none => none

/-- The suffix of `s` after the first occurrence of the non-empty pattern
`pat`, or `none`. -/
def sAfterFirst (s pat : String) : Option String :=
  match splitFirstFuel (s.toList.length + 1) pat.toList s.toList with
  | some (_, post) => some (String.mk post)
  | none => none

/-- Modelled from the spec: integer strings parse directly (spec section
4.2); Python `int()` accepts surrounding whitespace and an optional sign
(external `util.is_int`). -/
def isIntStr (s : String) : Bool :=
  let l := (sTrim s).toList
  let l2 := if l.head? = some '+' ∨ l.head? = some '-' then l.tail else l
  !l2.isEmpty && l2.all Char.isDigit

def is_int (v : JVal) : Bool :=
  match v with
  | .int _ => true
  | .bool _ => true
  | .str s => isIntStr s
  | _ => false

def digitsToNat (l : List Char) : Nat :=
  l.foldl (fun acc c => acc * 10 + (c.toNat - 48)) 0

/-- Python `int(v)` on a value for which `is_int` holds. -/
def pyToInt (v : JVal) : Int :=
  match v with
  | .int n => n
  | .bool b => if b then 1 else 0
  | .str s =>
      let l := (sTrim s).toList
      if l.head? = some '-' then -(digitsToNat l.tail : Int)
      else if l.head? = some '+' then (digitsToNat l.tail : Int)
      else (digitsToNat l : Int)
  | _ => 0

/-- A single apostrophe, used by Python repr of strings. -/
def sq : String := String.singleton (Char.ofNat 39)

mutual

/-- Python `repr`, as used when a container ends up inside `%s` formatting.
String escaping inside repr is not modelled (no claim exercises it). -/
def pyRepr : JVal → String
  | .null => "None"
  | .bool true => "True"
  | .bool false => "False"
  | .int n => toString n
  | .str s => sq ++ s ++ sq
  | .arr xs => "[" ++ String.intercalate ", " (pyReprList xs) ++ "]"
  | .obj kvs => "\x7b" ++ String.intercalate ", " (pyReprKVs kvs) ++ "\x7d"

def pyReprList : List JVal → List String
  | [] => []
  | x :: xs => pyRepr x :: pyReprList xs

def pyReprKVs : List (String × JVal) → List String
  | [] => []
  | (k, v) :: kvs => (sq ++ k ++ sq ++ ": " ++ pyRepr v) :: pyReprKVs kvs

end

/-- Python `str(v)` / `'%s' % v`. -/
def pyStr : JVal → String
  | .null => "None"
  | .bool true => "True"
  | .bool false => "False"
  | .int n => toString n
  | .str s => s
  | v => pyRepr v

/-- Python `v.strip()` on things the source strips; the source only ever
strips strings (a non-string would raise), modelled via its text form. -/
def pyStrip (v : JVal) : String := sTrim (pyStr v)

/-- `html.escape(s, quote=False)`: ampersand first, then the angle brackets. -/
def pyEscape (s : String) : String :=
  sReplace (sReplace (sReplace s "&" "&amp;") "<" "&lt;") ">" "&gt;"

/-- `xml.sax.saxutils.unescape`: the angle brackets first, ampersand last. -/
def xml_unescape (s : String) : String :=
  sReplace (sReplace (sReplace s "&lt;" "<") "&gt;" ">") "&amp;" "&"

/-- Python slice `l[a:b]` over code points (the source wraps content in
`util.WideUnicode` precisely to index by code point). -/
def pySlice (l : List Char) (a b : Int) : List Char :=
  let n : Int := l.length
  let clamp : Int → Nat := fun i =>
    if i < 0 then (max (n + i) 0).toNat else (min i n).toNat
  (l.take (clamp b)).drop (clamp a)

/-- Python slice `l[a:]`. -/
def pySliceFrom (l : List Char) (a : Int) : List Char :=
  pySlice l a (l.length : Int)

/-- Python substring test `pat in s`. -/
def strHasSub (s pat : String) : Bool :=
  let sl := s.toList
  let pl := pat.toList
  (List.range (sl.length + 1)).any (fun i => pl == (sl.drop i).take pl.length)

/-- Python `x in container` for the container shapes the source uses. -/
def pyIn (x : JVal) (container : JVal) : Bool :=
  match container with
  | .obj kvs => match x with
      | .str k => kvs.any (fun kv => kv.1 = k)
      | _ => false
  | .arr xs => xs.contains x
  | .str s => match x with
      | .str pat => strHasSub s pat
      | _ => false
  | _ => false

/-- Stable insertion sort: an element is placed before the later elements it
does not strictly exceed, matching Python `list.sort` stability. -/
def insertStable (lt : α → α → Bool) (x : α) : List α → List α
  | [] => [x]
  | y :: ys => if lt y x then y :: insertStable lt x ys else x :: y :: ys

def sortStable (lt : α → α → Bool) : List α → List α
  | [] => []
  | x :: xs => insertStable lt x (sortStable lt xs)

/-- Comparison of the values Python actually compares in this module
(ints and strings); anything else would raise and is never exercised. -/
def pyLt (a b : JVal) : Bool :=
  match a, b with
  | .int m, .int n => m < n
  | .str s, .str t => s < t
  | _, _ => false

/-- `ISO_6709_RE`: two signed digit-or-dot groups, anything without a newline,
then a final slash. -/
def iso6709_match (s : String) : Option (String × String) :=
  let latChar : Char → Bool := fun c => c.isDigit || c = '.'
  let sign : Char → Bool := fun c => c = '+' || c = '-'
  match s.toList with
  | [] => none
  | c1 :: t1 =>
      if sign c1 then
        let run1 := t1.takeWhile latChar
        let r1 := t1.dropWhile latChar
        if run1.isEmpty then none else
        match r1 with
        | [] => none
        | c2 :: t2 =>
            if sign c2 then
              let run2 := t2.takeWhile latChar
              let r2 := t2.dropWhile latChar
              if run2.isEmpty then none
              else if r2.getLast? = some '/' ∧ r2.dropLast.all (· ≠ '\n') then
                some ((c1 :: run1).asString, (c2 :: run2).asString)
              else none
            else none
      else none

/-- The GitHub issue/repo URL pattern matched against in-reply-to URLs. -/
def github_repo_url (u : String) : Bool :=
  let tail? : Option String :=
    if sStartsWith u "https://github.com/" then some (sDrop u 19)
    else if sStartsWith u "http://github.com/" then some (sDrop u 18)
    else none
  match tail? with
  | none => false
  | some rest =>
      let l := rest.toList
      let seg1 := l.takeWhile (· ≠ '/')
      let r1 := l.dropWhile (· ≠ '/')
      if seg1.isEmpty then false else
      match r1 with
      | [] => false
      | _ :: r2 =>
          let seg2 := r2.takeWhile (· ≠ '/')
          let r3 := (r2.dropWhile (· ≠ '/')).asString
          !seg2.isEmpty && (r3 = "" || r3 = "/" || r3 = "/issues" || r3 = "/issues/")

/-- The twitter URL pattern used for the retweet caption special case. -/
def twitter_url (u : String) : Bool :=
  sStartsWith u "https://twitter.com/" ||
  sStartsWith u "http://twitter.com/" ||
  sStartsWith u "https://www.twitter.com/" ||
  sStartsWith u "http://www.twitter.com/" ||
  sStartsWith u "https://mobile.twitter.com/" ||
  sStartsWith u "http://mobile.twitter.com/"

mutual

/-- A structural size measure on JSON values, used to bound the
`get_string_urls` recursion. -/
def jsize : JVal → Nat
  | .arr xs => 1 + jsizeList xs
  | .obj kvs => 1 + jsizeKVs kvs
  | _ => 1

def jsizeList : List JVal → Nat
  | [] => 1
  | x :: xs => 1 + jsize x + jsizeList xs

def jsizeKVs : List (String × JVal) → Nat
  | [] => 1
  | kv :: kvs => 1 + jsize kv.2 + jsizeKVs kvs

end

mutual

/-- The recursion of `get_string_urls`, bounded structurally by a fuel
argument.  Every recursive call passes a smaller-`jsize` argument (the
`url` value is a `dget`/`pyOr` subterm of the item, see `jsize_dget_le`
and `jsize_pyOr_le`), so with `fuel = jsize objs` the invariant
`jsize arg ≤ fuel + 1` holds at every call and the zero-fuel case
(`jsize` is always positive, `jsize_pos`) is unreachable: the function
computes exactly the recursion of the source. -/
def gsuFuel (fuel : Nat) (objs : JVal) : List String :=
  match fuel with
  | 0 => []
  | fuel + 1 =>
    match objs with
    | .arr xs => gsuListFuel fuel xs
    | .str s => s.toList.map String.singleton
    | .obj kvs => kvs.map Prod.fst
    | _ => []

/-- The per-item loop body of `get_string_urls`, same fuel discipline. -/
def gsuListFuel (fuel : Nat) (l : List JVal) : List String :=
  match fuel with
  | 0 => []
  | fuel + 1 =>
    match l with
    | [] => []
    | item :: rest =>
        (match item with
         | .str s => [s]
         | .obj kvs =>
             let it := JVal.obj kvs
             let itemtype :=
               (JVal.pyIterate (it.dgetD "type" (.arr []))).filter
                 (fun x => match x with
                   | .str t => sStartsWith t "h-"
                   | _ => false)
             if itemtype.isEmpty then []
             else gsuFuel fuel
               ((JVal.pyOr (it.dget "properties") it).dget "url")
         | _ => []) ++ gsuListFuel fuel rest

end

/-- `get_string_urls` (microformats2.py:85): strings pass through, embedded
mf2 items with an h- type contribute the URLs under their `url` property. -/
def get_string_urls (objs : JVal) : List String :=
  gsuFuel (jsize objs) objs

/-- `get_text` (microformats2.py:130). -/
def get_text (val : JVal) : String :=
  let v := if val.isObj then val.dget "value" else val
  if v.truthy then pyStrip v else ""

/-- `get_html` (microformats2.py:114). -/
def get_html (val : JVal) : String :=
  if val.isObj && (val.dget "html").truthy then pyStrip (val.dget "html")
  else pyEscape (get_text val)

/-- `first_props` (microformats2.py:1102): first value of every property,
empty string when a property has no values. -/
def first_props (props : JVal) : JVal :=
  match props with
  | .obj kvs =>
      if kvs.isEmpty then .obj []
      else .obj (kvs.map (fun kv => (kv.1, get_first (.obj kvs) kv.1 (.str ""))))
  | _ => .obj []

/-- `object_urls` (microformats2.py:1138): a string passes through, a dict
yields its deduplicated non-null `url` plus `urls[].value` entries. -/
def object_urls (o : JVal) : JVal :=
  match o with
  | .str s => .str s
  | _ => .arr (uniquify (trimNullsList
      (o.dget "url" :: (JVal.pyIterate (o.dgetD "urls" (.arr []))).map
        (fun u => u.dget "value"))))

/-- Modelled from the spec: `source.object_type` is not under src/; per the
data model (spec section 3) an activity is typed by its verb, anything else
by its objectType. -/
def object_type (obj : JVal) : JVal :=
  if obj.dget "objectType" = .str "activity" then obj.dget "verb"
  else obj.dget "objectType"

/-- Modelled from the spec: `source.Source.postprocess_object` is not under
src/; the spec records only that null/empty leaves are pruned from output
records (spec section 3 invariants). -/
def postprocess_object (obj : JVal) : JVal := trim_nulls obj

/-- `AS_TO_MF2_TYPE` (microformats2.py:61). -/
def AS_TO_MF2_TYPE (t : JVal) : Option (List String) :=
  match t with
  | .str "event" => some ["h-event"]
  | .str "person" => some ["h-card"]
  | .str "place" => some ["h-card", "p-location"]
  | _ => none

/-- `MF2_TO_AS_TYPE_VERB` (microformats2.py:66), with the dict-get default
`(None, None)` built in. -/
def MF2_TO_AS_TYPE_VERB (t : String) : JVal × JVal :=
  match t with
  | "article" => (.str "article", .null)
  | "bookmark" => (.str "activity", .str "post")
  | "event" => (.str "event", .null)
  | "follow" => (.str "activity", .str "follow")
  | "invite" => (.str "activity", .str "invite")
  | "like" => (.str "activity", .str "like")
  | "location" => (.str "place", .null)
  | "note" => (.str "note", .null)
  | "person" => (.str "person", .null)
  | "reply" => (.str "comment", .null)
  | "repost" => (.str "activity", .str "share")
  | "rsvp" => (.str "activity", .null)
  | "tag" => (.str "activity", .str "tag")
  | _ => (.null, .null)

/-- The external collaborators (mf2util, humanfriendly, webutil network and
parsing helpers), modelled from the spec as opaque total functions
(spec sections 4.2, 5, 6: collaborator contracts; per-field parse failures
are represented by `none`). -/
structure Collab where
  find_author : JVal → JVal
  post_type_discovery : JVal → String
  interpret : JVal → JVal
  parse_iso8601_duration : JVal → Option Int
  parse_size : JVal → Option Int
  format_size : Option Int → String
  to_float : JVal → Option JVal
  pretty_link : String → String

/-- `size_to_bytes` (microformats2.py:1267). -/
def size_to_bytes (C : Collab) (size : JVal) : Option Int :=
  if is_int size then some (pyToInt size)
  else if !size.truthy then none
  else C.parse_size size

/-- `xml.sax.saxutils.quoteattr`: escape, then pick a quote character. -/
def pyQuoteAttr (s : String) : String :=
  let e := pyEscape s
  if !strHasSub e "\"" then "\"" ++ e ++ "\""
  else if !strHasSub e sq then sq ++ e ++ sq
  else "\"" ++ sReplace e "\"" "&quot;" ++ "\""

/-- The `LINK` template (microformats2.py:60). -/
def LINK (cls url : String) : String :=
  "  <a class=\"u-" ++ cls ++ "\" href=\"" ++ url ++ "\"></a>"

/-- The `HENTRY` template (microformats2.py:30), with every placeholder as
an explicit argument in template order. -/
def HENTRY (types uid summary published updated author linked_name
    content_classes invitees content attachments sizes event_times location
    categories links children comments : String) : String :=
  "<article class=\"" ++ types ++ "\">\n" ++
  "  <span class=\"p-uid\">" ++ uid ++ "</span>\n" ++
  "  " ++ summary ++ "\n" ++
  "  " ++ published ++ "\n" ++
  "  " ++ updated ++ "\n" ++
  author ++ "\n" ++
  "  " ++ linked_name ++ "\n" ++
  "  <div class=\"" ++ content_classes ++ "\">\n" ++
  "  " ++ invitees ++ "\n" ++
  "  " ++ content ++ "\n" ++
  "  </div>\n" ++
  attachments ++ "\n" ++
  sizes ++ "\n" ++
  event_times ++ "\n" ++
  location ++ "\n" ++
  categories ++ "\n" ++
  links ++ "\n" ++
  children ++ "\n" ++
  comments ++ "\n" ++
  "</article>\n"

/-- The `HCARD` template (microformats2.py:52). -/
def HCARD (types ids linked_name nicknames photos : String) : String :=
  "  <span class=\"" ++ types ++ "\">\n" ++
  "    " ++ ids ++ "\n" ++
  "    " ++ linked_name ++ "\n" ++
  "    " ++ nicknames ++ "\n" ++
  "    " ++ photos ++ "\n" ++
  "  </span>\n"

/-- `img` (microformats2.py:1183). -/
def img (src alt : JVal) : String :=
  let p : JVal × JVal :=
    match src with
    | .obj _ => (src.dget "value", JVal.pyOr (src.dget "alt") (.str ""))
    | _ => (src, alt)
  "<img class=\"u-photo\" src=\"" ++ pyStr p.1 ++ "\" alt=" ++
    pyQuoteAttr (pyStr (JVal.pyOr p.2 (.str ""))) ++ " />"

/-- `vid` (microformats2.py:1201). -/
def vid (src poster : JVal) : String :=
  let poster_img :=
    if poster.truthy then "<img src=\"" ++ pyStr poster ++ "\" />" else ""
  "<video class=\"u-video\" src=\"" ++ pyStr src ++
  "\" controls=\"controls\" poster=\"" ++ pyStr poster ++
  "\">Your browser does not support the video tag. <a href=\"" ++ pyStr src ++
  "\">Click here to view directly. " ++ poster_img ++ "</a></video>"

/-- `aud` (microformats2.py:1219). -/
def aud (src : JVal) : String :=
  "<audio class=\"u-audio\" src=\"" ++ pyStr src ++
  "\" controls=\"controls\">Your browser does not support the audio tag. <a href=\"" ++
  pyStr src ++ "\">Click here to listen directly.</a></audio>"

/-- `maybe_linked` (microformats2.py:1231); empty class names stand for the
absent defaults. -/
def maybe_linked (text url : JVal) (linked_classname unlinked_classname :
    String) : String :=
  if url.truthy then
    let cn :=
      if linked_classname ≠ "" then " class=\"" ++ linked_classname ++ "\""
      else ""
    "<a" ++ cn ++ " href=\"" ++ pyStr url ++ "\">" ++ pyStr text ++ "</a>"
  else if unlinked_classname ≠ "" then
    "<span class=\"" ++ unlinked_classname ++ "\">" ++ pyStr text ++ "</span>"
  else pyStr text

/-- `maybe_linked_name` (microformats2.py:1156). -/
def maybe_linked_name (props : JVal) : String :=
  let prop := first_props props
  let name := prop.dget "name"
  let url := prop.dget "url"
  let h :=
    if name ≠ .null then maybe_linked name url "p-name u-url" "p-name"
    else maybe_linked (JVal.pyOr url (.str "")) url "u-url" ""
  let extra_urls := (JVal.pyIterate (props.dgetD "url" (.arr []))).tail
  if !extra_urls.isEmpty then
    h ++ "\n" ++ String.intercalate "\n"
      (extra_urls.map (fun u => maybe_linked (.str "") u "u-url" ""))
  else h

/-- `maybe_datetime` (microformats2.py:1251). -/
def maybe_datetime (v : JVal) (classname : String) : String :=
  if v.truthy then
    "<time class=\"" ++ classname ++ "\" datetime=\"" ++ pyStr v ++ "\">" ++
      pyStr v ++ "</time>"
  else ""

/-- `hcard_to_html` (microformats2.py:814). -/
def hcard_to_html (hcard : JVal) (parent_props : List String) : String :=
  if !hcard.truthy then ""
  else
    let props := hcard.dgetD "properties" (.obj [])
    let prop := first_props props
    if !prop.truthy then ""
    else
      let types := String.intercalate " "
        ((uniquify ((parent_props.map JVal.str) ++
          JVal.pyIterate (hcard.dgetD "type" (.arr [])))).map pyStr)
      let ids := String.intercalate "\n"
        ((((JVal.pyIterate (props.dgetD "uid" (.arr []))).filter
            JVal.truthy).map (fun uid =>
          "<data class=\"p-uid\" value=\"" ++ pyStr uid ++ "\"></data>")) ++
         (((JVal.pyIterate (props.dgetD "numeric-id" (.arr []))).filter
            JVal.truthy).map (fun nid =>
          "<data class=\"p-numeric-id\" value=\"" ++ pyStr nid ++
            "\"></data>")))
      let nicknames := String.intercalate "\n"
        (((JVal.pyIterate (props.dgetD "nickname" (.arr []))).filter
            JVal.truthy).map (fun nick =>
          "<span class=\"p-nickname\">" ++ pyStr nick ++ "</span>"))
      let photos := String.intercalate "\n"
        (((JVal.pyIterate (props.dgetD "photo" (.arr []))).filter
            JVal.truthy).map (fun p => img p (.str "")))
      HCARD types ids (maybe_linked_name props) nicknames photos

/-- `tags_to_html` (microformats2.py:1115). -/
def tags_to_html (tags : List JVal) (classname : String) (visible : Bool) :
    String :=
  let pairs : List (JVal × JVal) := tags.foldl (fun acc tag =>
    let name :=
      if visible && (tag.dget "displayName").truthy then tag.dget "displayName"
      else JVal.str ""
    acc ++ (JVal.pyIterate (object_urls tag)).map (fun url => (url, name))) []
  let sortedPairs := sortStable
    (fun a b => pyLt a.1 b.1 || (a.1 == b.1 && pyLt a.2 b.2))
    (uniquify pairs)
  String.join (sortedPairs.map (fun p =>
    "\n<a class=\"" ++ classname ++ "\" " ++
    (if p.2.truthy then "" else "aria-hidden=\"true\" ") ++
    "href=\"" ++ pyStr p.1 ++ "\">" ++ pyStr p.2 ++ "</a>"))

/-- The exceptional outcomes the embedding tracks.  `fuel` is a model
artifact (the recursion bound ran out — never the case for the bounds used
in the theorems below); the others mirror exceptions the source raises. -/
inductive PyErr where
  /-- Recursion bound exhausted (model artifact only). -/
  | fuel
  /-- microformats2.py:227 calls the `logging` module object itself, which
  raises `TypeError: module object is not callable`. -/
  | loggingCall
  /-- Adding an unhashable value (list/dict) to a `set`. -/
  | unhashable
  /-- The NotImplementedError for combined in-reply-to and tag-of
  (microformats2.py:567). -/
  | notImpl
  deriving DecidableEq, Repr

abbrev PyRes (α : Type) := Except PyErr α

/-- Keyword arguments of `object_to_json` (microformats2.py:161). -/
structure OOpts where
  trim_nulls : Bool
  entry_class : JVal
  default_object_type : JVal
  synthesize_content : Bool
  deriving Repr

/-- The defaults of `object_to_json`. -/
def OOpts.dflt : OOpts := ⟨true, .str "h-entry", .null, true⟩

/-- Keyword arguments of `render_content` (microformats2.py:849). -/
structure ROpts where
  include_location : Bool
  synthesize_content : Bool
  render_attachments : Bool
  render_image : Bool
  white_space_pre : Bool
  deriving Repr

/-- The defaults of `render_content`. -/
def ROpts.dflt : ROpts := ⟨true, true, false, false, true⟩

/-- An integer where the source does int arithmetic (slice offsets); other
values would raise there and are excluded by the well-formedness
hypotheses. -/
def jvalToInt : JVal → Int
  | .int n => n
  | .bool b => if b then 1 else 0
  | _ => 0

/-- `defaultdict(list)` grouping by first-seen key, appending per key. -/
def addGroup (gs : List (JVal × List JVal)) (k : JVal) (t : JVal) :
    List (JVal × List JVal) :=
  match gs with
  | [] => [(k, [t])]
  | (k1, l) :: rest =>
      if k1 = k then (k1, l ++ [t]) :: rest else (k1, l) :: addGroup rest k t

def lookupG (gs : List (JVal × List JVal)) (k : JVal) : List JVal :=
  ((gs.find? (fun g => g.1 = k)).map Prod.snd).getD []

def removeG (gs : List (JVal × List JVal)) (k : JVal) :
    List (JVal × List JVal) :=
  gs.filter (fun g => g.1 ≠ k)

def groupValues (gs : List (JVal × List JVal)) : List JVal :=
  gs.foldl (fun acc g => acc ++ g.2) []

/-- `_render_attachments` (microformats2.py:1017). -/
def _render_attachments (attachments : List JVal) (obj : JVal) : String :=
  attachments.foldl (fun content att =>
    let name := JVal.pyOr (att.dget "displayName") (.str "")
    let stream :=
      JVal.pyOr ((get_first att "stream" (.obj [])).dget "url") (.str "")
    let image :=
      JVal.pyOr ((get_first att "image" (.obj [])).dget "url") (.str "")
    let type := att.dget "objectType"
    let c1 := content ++ "\n<p>"
    let st : String × Bool :=
      if type = .str "video" then
        (if stream.truthy then c1 ++ vid stream image else c1, false)
      else if type = .str "audio" then
        (if stream.truthy then c1 ++ aud stream else c1, false)
      else
        let url := JVal.pyOr (att.dget "url") (obj.dget "url")
        let sa : String × Bool :=
          if url.truthy then
            (c1 ++ "\n<a class=\"link\" href=\"" ++ pyStr url ++ "\">", true)
          else (c1, false)
        (if image.truthy then sa.1 ++ "\n" ++ img image name else sa.1, sa.2)
    let c3 :=
      if name.truthy && type ≠ .str "image" then
        st.1 ++ "\n<span class=\"name\">" ++ pyStr name ++ "</span>"
      else st.1
    let c4 := if st.2 then c3 ++ "\n</a>" else c3
    let summary := att.dget "summary"
    let c5 :=
      if summary.truthy && summary ≠ name then
        c4 ++ "\n<span class=\"summary\">" ++ pyStr summary ++ "</span>"
      else c4
    c5 ++ "\n</p>") ""

/-- `ret['properties'][k] = v` on the result dict being built. -/
def setProp (ret : JVal) (k : String) (v : JVal) : JVal :=
  JVal.dset ret "properties" (JVal.dset (ret.dget "properties") k v)

/-- The pure part of `object_to_json` (microformats2.py:232-363) before the
final null-trimming: the result dict literal plus the later property writes,
with every recursively converted piece passed in already evaluated (in
source evaluation order). -/
def object_to_json_ret (opts : OOpts) (obj primary obj_type : JVal)
    (durationVal : JVal) (authorJ locJ : JVal)
    (commentsJ childrenJ : List JVal) (contentHtml : String)
    (photos : List JVal) (category : List JVal) (inviteeJ : JVal)
    (likeWrites : List (String × JVal)) : JVal :=
  let attElems := get_list primary "attachments" ++ get_list primary "tags"
  let attOf : JVal → List JVal :=
    fun k => attElems.filter (fun e => e.dget "objectType" = k)
  let cands := obj :: (attOf (.str "video") ++ attOf (.str "audio"))
  let stream := cands.foldl (fun st cand =>
    let l := get_list cand "stream"
    if l.isEmpty then st
    else (l.find? JVal.truthy).getD (l.getLast?.getD .null)) (.obj [])
  let size := stream.dget "size"
  let sizes : List JVal := if size.truthy then [.str (pyStr size)] else []
  let name := primary.dgetD "displayName" (primary.dget "title")
  let summary := primary.dget "summary"
  let irt0 := obj.dget "inReplyTo"
  let in_reply_tos0 : List JVal :=
    if irt0.truthy then JVal.pyIterate irt0
    else
      let context := obj.dget "context"
      if context.truthy && context.isObj then
        let c := context.dget "inReplyTo"
        if c.truthy then JVal.pyIterate c else []
      else []
  let is_rsvp := obj_type = .str "rsvp-yes" || obj_type = .str "rsvp-no" ||
    obj_type = .str "rsvp-maybe"
  let in_reply_tos :=
    if (is_rsvp || obj_type = .str "react") && (obj.dget "object").truthy then
      let objs := obj.dget "object"
      in_reply_tos0 ++ (if objs.isArr then JVal.pyIterate objs else [objs])
    else in_reply_tos0
  let typeVal : JVal :=
    if opts.entry_class.isStr then
      match AS_TO_MF2_TYPE obj_type with
      | some l => .arr (l.map .str)
      | none => .arr [opts.entry_class]
    else .arr (JVal.pyIterate opts.entry_class)
  let ou := JVal.pyOr (object_urls obj) (object_urls primary)
  let urlList := JVal.pyIterate ou ++
    JVal.pyIterate (obj.dgetD "upstreamDuplicates" (.arr []))
  let videoList := dedupe_urls
    (trimNullsList ((attOf (.str "video")).map (fun e => get_url_key e "stream")) ++
     get_urls primary "stream")
  let audioList :=
    trimNullsList ((attOf (.str "audio")).map (fun e => get_url_key e "stream"))
  let ret0 : JVal := .obj [
    ("type", typeVal),
    ("properties", .obj [
      ("uid", .arr [JVal.pyOr (obj.dget "id") (.str "")]),
      ("numeric-id", .arr [JVal.pyOr (obj.dget "numeric_id") (.str "")]),
      ("name", .arr [name]),
      ("nickname", .arr [JVal.pyOr (obj.dget "username") (.str "")]),
      ("summary", .arr [summary]),
      ("url", .arr urlList),
      ("video", .arr videoList),
      ("audio", .arr audioList),
      ("duration", .arr [durationVal]),
      ("size", .arr sizes),
      ("published", .arr [obj.dgetD "published" (primary.dgetD "published" (.str ""))]),
      ("updated", .arr [obj.dgetD "updated" (primary.dgetD "updated" (.str ""))]),
      ("in-reply-to", .arr (trimNullsList (in_reply_tos.map (fun o => o.dget "url")))),
      ("author", .arr [authorJ]),
      ("location", .arr [locJ]),
      ("comment", .arr commentsJ),
      ("start", .arr [primary.dget "startTime"]),
      ("end", .arr [primary.dget "endTime"])]),
    ("children", .arr childrenJ)]
  let text := xml_unescape (pyStr (JVal.pyOr (primary.dget "content") (.str "")))
  let posMatch := iso6709_match (pyStr (JVal.pyOr (primary.dget "position") (.str "")))
  let lat0 : JVal := match posMatch with
    | some p => .str p.1
    | none => .null
  let long0 : JVal := match posMatch with
    | some p => .str p.2
    | none => .null
  let lat := if lat0.truthy then lat0 else primary.dget "latitude"
  let long := if long0.truthy then long0 else primary.dget "longitude"
  let writes : List (String × JVal) :=
    [("content",
      if strHasSub contentHtml "<" then
        .arr [.obj [("value", .str text), ("html", .str contentHtml)]]
      else .arr [.str text]),
     ("photo", .arr photos)] ++
    (if obj_type = .str "tag" then
      [("tag-of", .arr (get_urls obj "target"))]
     else []) ++
    [("category", .arr category)] ++
    (if is_rsvp then [("rsvp", .arr [.str (sDrop (pyStr obj_type) 5)])]
     else if obj_type = .str "invite" then [("invitee", .arr [inviteeJ])]
     else []) ++
    likeWrites ++
    (if obj_type = .str "bookmark" then
      [("bookmark-of", .arr [primary.dget "targetUrl"])]
     else []) ++
    (if lat.truthy then [("latitude", .arr [.str (pyStr lat)])] else []) ++
    (if long.truthy then [("longitude", .arr [.str (pyStr long)])] else [])
  writes.foldl (fun r kv => setProp r kv.1 kv.2) ret0

/-- `object_to_json_ret` plus the final `util.trim_nulls` when requested
(microformats2.py:364-366). -/
def object_to_json_build (opts : OOpts) (obj primary obj_type : JVal)
    (durationVal : JVal) (authorJ locJ : JVal)
    (commentsJ childrenJ : List JVal) (contentHtml : String)
    (photos : List JVal) (category : List JVal) (inviteeJ : JVal)
    (likeWrites : List (String × JVal)) : JVal :=
  let ret := object_to_json_ret opts obj primary obj_type durationVal authorJ
    locJ commentsJ childrenJ contentHtml photos category inviteeJ likeWrites
  if opts.trim_nulls then trim_nulls ret else ret

/-- The primary object `object_to_json` operates on (microformats2.py:182-
190): a plain post envelope is unwrapped to its object. -/
def otj_primary (opts : OOpts) (obj : JVal) : JVal :=
  if JVal.pyOr (object_type obj) opts.default_object_type = .str "post" then
    obj.dgetD "object" (.obj [])
  else obj

/-- The effective object type of the same lines. -/
def otj_type (opts : OOpts) (obj : JVal) : JVal :=
  if JVal.pyOr (object_type obj) opts.default_object_type = .str "post" then
    JVal.pyOr (object_type (obj.dgetD "object" (.obj [])))
      opts.default_object_type
  else JVal.pyOr (object_type obj) opts.default_object_type

/-- The value written into the item's `type` (microformats2.py:233-236).
Python parses the line as
`(AS_TO_MF2_TYPE.get(obj_type) or [entry_class]) if isinstance(entry_class,
str) else list(entry_class)`, so the lookup table is consulted only when
`entry_class` is a string; for any other sequence the whole expression is
`list(entry_class)`. -/
def otj_type_value (opts : OOpts) (obj : JVal) : JVal :=
  if opts.entry_class.isStr then
    match AS_TO_MF2_TYPE (otj_type opts obj) with
    | some l => .arr (l.map .str)
    | none => .arr [opts.entry_class]
  else .arr (JVal.pyIterate opts.entry_class)

mutual

/-- `object_to_json` (microformats2.py:161): AS1 object to MF2 JSON item.
The recursively converted pieces are evaluated in source order before the
pure dict construction (`object_to_json_build`).  The fuel argument bounds
the recursion depth; the source always terminates on (finite) JSON input. -/
def object_to_json (C : Collab) (fuel : Nat) (opts : OOpts) (obj : JVal) :
    PyRes JVal :=
  match fuel with
  | 0 => .error .fuel
  | fuel + 1 =>
    if !(obj.truthy && obj.isObj) then pure (.obj []) else do
      let primary := otj_primary opts obj
      let obj_type := otj_type opts obj
      let attElems := get_list primary "attachments" ++ get_list primary "tags"
      let attOf : JVal → List JVal :=
        fun k => attElems.filter (fun e => e.dget "objectType" = k)
      let cands := obj :: (attOf (.str "video") ++ attOf (.str "audio"))
      let stream := cands.foldl (fun st cand =>
        let l := get_list cand "stream"
        if l.isEmpty then st
        else (l.find? JVal.truthy).getD (l.getLast?.getD .null)) (.obj [])
      let duration := stream.dget "duration"
      let durRes : PyRes JVal :=
        if duration ≠ JVal.null then
          if is_int duration then pure (JVal.str (pyStr duration))
          else throw PyErr.loggingCall
        else pure JVal.null
      let durationVal ← durRes
      let author := obj.dgetD "author" (obj.dgetD "actor" (.obj []))
      let authorJ ← object_to_json C fuel
        ⟨false, .str "h-entry", .str "person", true⟩ author
      let locJ ← object_to_json C fuel
        ⟨false, .str "h-entry", .str "place", true⟩
        (primary.dgetD "location" (.obj []))
      let commentsJ ←
        (JVal.pyIterate ((obj.dgetD "replies" (.obj [])).dgetD "items"
          (.arr []))).mapM
          (object_to_json C fuel ⟨false, .str "h-cite", .null, true⟩)
      let childNotes ←
        ((attOf (.str "note")).filter (fun a => !a.dhas "startIndex")).mapM
          (object_to_json C fuel
            ⟨false, .arr [.str "u-quotation-of", .str "h-cite"], .null, true⟩)
      let childArts ←
        ((attOf (.str "article")).filter (fun a => !a.dhas "startIndex")).mapM
          (object_to_json C fuel ⟨false, .arr [.str "h-cite"], .null, true⟩)
      let contentHtml ← render_content C fuel
        ⟨false, opts.synthesize_content, false, false, true⟩ primary
      let photosAcc ← (attOf (.str "image") ++ [primary]).foldlM
        (fun (acc : List JVal × List JVal) image =>
          (get_urls image "image").foldlM
            (fun (acc2 : List JVal × List JVal) url => do
              if url.truthy then
                if url.isArr || url.isObj then throw PyErr.unhashable
                else if url ∈ acc2.1 then pure acc2
                else
                  let nm := (get_first image "image" (.obj [])).dget "displayName"
                  pure (url :: acc2.1,
                    acc2.2 ++ [if nm.truthy then
                        JVal.obj [("value", url), ("alt", nm)]
                      else url])
              else pure acc2) acc) (([], []) : List JVal × List JVal)
      let tagsVal := JVal.pyOr (obj.dgetD "tags" (.arr []))
        ((get_first obj "object" (.obj [])).dgetD "tags" (.arr []))
      let tagsList :=
        if !tagsVal.truthy && obj_type = .str "tag" then get_list obj "object"
        else JVal.pyIterate tagsVal
      let catOpts ← tagsList.mapM (fun tag =>
        if tag.dget "objectType" = .str "person" then do
          let j ← object_to_json C fuel
            ⟨true, .str "u-category h-card", .null, true⟩ tag
          pure (some j)
        else if tag.dget "objectType" = .str "hashtag" ||
            obj_type = .str "tag" then
          pure (if (tag.dget "displayName").truthy then
              some (tag.dget "displayName")
            else none)
        else pure none)
      let category := catOpts.filterMap id
      let is_rsvp := obj_type = .str "rsvp-yes" || obj_type = .str "rsvp-no" ||
        obj_type = .str "rsvp-maybe"
      let invRes : PyRes JVal :=
        if !is_rsvp && obj_type = .str "invite" then
          object_to_json C fuel ⟨false, .str "h-entry", .str "person", true⟩
            (obj.dget "object")
        else pure JVal.null
      let inviteeJ ← invRes
      let likeWrites ← ([("favorite", "like"), ("follow", "follow"),
          ("like", "like"), ("share", "repost")] :
            List (String × String)).mapM (fun tp => do
        if obj_type = .str tp.1 then
          let objs := get_list obj "object"
          let vals ← objs.mapM (fun o =>
            if o.isObj && o.dhas "url" &&
                o.keys.all (fun k => k = "url" || k = "objectType") then
              pure (o.dget "url")
            else object_to_json C fuel ⟨false, .str "h-cite", .null, true⟩ o)
          pure (tp.2 ++ "-of", JVal.arr vals)
        else do
          let vals ← (tagsList.filter
              (fun t => object_type t = .str tp.1)).mapM
            (object_to_json C fuel ⟨false, .str "h-cite", .null, true⟩)
          pure (tp.2, JVal.arr vals))
      pure (object_to_json_build opts obj primary obj_type durationVal
        authorJ locJ commentsJ (childNotes ++ childArts) contentHtml
        photosAcc.2 category inviteeJ likeWrites)

/-- `render_content` (microformats2.py:849): renders an AS1 object as HTML,
splicing inline mentions, appending trailing tags, synthesizing like/share
captions, and optionally rendering images/attachments/location. -/
def render_content (C : Collab) (fuel : Nat) (opts : ROpts) (obj : JVal) :
    PyRes String :=
  match fuel with
  | 0 => .error .fuel
  | fuel + 1 => do
    let obj_type := object_type obj
    let content0 := JVal.pyOr (obj.dget "content") (.str "")
    let st := (JVal.pyIterate (obj.dgetD "tags" (.arr []))).foldl
      (fun (st : List JVal × List JVal × List (JVal × List JVal)) t =>
        let seen := st.1
        let ms := st.2.1
        let gs := st.2.2
        let id := t.dget "id"
        if id.truthy && id ∈ seen then st
        else
          let seen2 := seen ++ [id]
          if t.dhas "startIndex" && t.dhas "length" && t.dhas "url" then
            (seen2, ms ++ [t], gs)
          else (seen2, ms, addGroup gs (object_type t) t)) ([], [], [])
    let mentions := st.2.1
    let groups0 := st.2.2
    let contentS := pyStr content0
    let content1 :=
      if mentions.isEmpty then contentS
      else
        let ms := sortStable
          (fun a b => pyLt (a.dget "startIndex") (b.dget "startIndex"))
          mentions
        let orig := contentS.toList
        let res := ms.foldl (fun (acc : String × Int) tag =>
          let start := jvalToInt (tag.dget "startIndex")
          let e := start + jvalToInt (tag.dget "length")
          (acc.1 ++ (pySlice orig acc.2 start).asString ++ "<a href=\"" ++
             pyStr (tag.dget "url") ++ "\">" ++
             (pySlice orig start e).asString ++ "</a>", e)) ("", (0 : Int))
        res.1 ++ (pySliceFrom orig res.2).asString
    let content2 :=
      if content1 ≠ "" && !(obj.dget "content_is_html").truthy &&
          strHasSub content1 "\n" then
        if opts.white_space_pre then
          "<div style=\"white-space: pre\">" ++ content1 ++ "</div>"
        else sReplace content1 "\n" "<br />\n"
      else content1
    let imageUrls := get_urls obj "image"
    let rendered_urls : List JVal := if opts.render_image then imageUrls else []
    let content3 :=
      if opts.render_image then
        content2 ++ _render_attachments (imageUrls.map (fun url =>
          JVal.obj [("objectType", .str "image"),
                    ("image", JVal.obj [("url", url)])])) obj
      else content2
    let targetUrl := obj.dget "targetUrl"
    let content4 :=
      if obj_type = .str "bookmark" && targetUrl.truthy then
        content3 ++ "\nBookmark: " ++ C.pretty_link (pyStr targetUrl)
      else content3
    let content5 :=
      if opts.render_attachments then
        let atts := (JVal.pyIterate (obj.dgetD "attachments" (.arr []))).filter
          (fun a => a.dget "objectType" ≠ .str "note" &&
            a.dget "objectType" ≠ .str "article" &&
            get_url_key a "image" ∉ rendered_urls)
        content4 ++
          _render_attachments (atts ++ lookupG groups0 (.str "article")) obj
      else content4
    let groups1 :=
      if opts.render_attachments then removeG groups0 (.str "article")
      else groups0
    let verbOpt : Option String :=
      if obj_type = .str "favorite" then some "Favorites"
      else if obj_type = .str "like" then some "Likes"
      else if obj_type = .str "share" then some "Shared"
      else none
    let content6 ← match verbOpt with
      | none => pure content5
      | some verb =>
        if !(opts.synthesize_content && obj.dhas "object" &&
            !obj.dhas "content") then pure content5
        else
          match get_list obj "object" with
          | [] => pure content5
          | target :: _ => do
            if target.isObj && target.dhas "url" &&
                target.keys.all (fun k => k = "url" || k = "objectType") then
              pure (content5 ++ "<a href=\"" ++ pyStr (target.dget "url") ++
                "\">" ++ sToLower verb ++ " this.</a>")
            else do
              let author := target.dgetD "author" (target.dgetD "actor" (.obj []))
              let cMid ←
                if obj_type = .str "share" && obj.dhas "url" &&
                    twitter_url (pyStr (obj.dget "url")) then
                  pure (content5 ++ "RT <a href=\"" ++
                    pyStr (target.dgetD "url" (.str "#")) ++ "\">@" ++
                    pyStr (author.dget "username") ++ "</a> ")
                else do
                  let author2 := match author with
                    | .obj kvs => JVal.obj (kvs.filter (fun kv => kv.1 ≠ "image"))
                    | _ => author
                  let aj ← object_to_json C fuel
                    ⟨true, .str "h-entry", .str "person", true⟩ author2
                  pure (content5 ++ verb ++ " <a href=\"" ++
                    pyStr (target.dgetD "url" (.str "#")) ++ "\">" ++
                    pyStr (target.dgetD "displayName"
                      (target.dgetD "title" (.str "a post"))) ++
                    "</a> by " ++ hcard_to_html aj [])
              let rc ← render_content C fuel
                ⟨opts.include_location, opts.synthesize_content, false, false,
                  opts.white_space_pre⟩ target
              pure (cMid ++ rc)
    let content7 :=
      if opts.render_attachments && obj.dget "verb" = .str "share" then
        let atts := ((get_list obj "object").flatMap (fun o =>
          JVal.pyIterate (o.dgetD "attachments" (.arr [])))).filter
          (fun a => a.dget "objectType" ≠ .str "note" &&
            a.dget "objectType" ≠ .str "article")
        content6 ++ _render_attachments atts obj
      else content6
    let loc := obj.dget "location"
    let content8 ←
      if opts.include_location && loc.truthy then do
        let lj ← object_to_json C fuel
          ⟨true, .str "h-entry", .str "place", true⟩ loc
        pure (content7 ++ "\n<p>" ++ hcard_to_html lj ["p-location"] ++ "</p>")
      else pure content7
    let groups2 := removeG (removeG (removeG (removeG groups1 (.str "like"))
      (.str "share")) (.str "react")) (.str "person")
    let content9 := content8 ++
      tags_to_html (lookupG groups2 (.str "hashtag")) "p-category" true
    let groups3 := removeG groups2 (.str "hashtag")
    let content10 := content9 ++
      tags_to_html (lookupG groups3 (.str "mention")) "u-mention" false
    let groups4 := removeG groups3 (.str "mention")
    pure (content10 ++ tags_to_html (groupValues groups4) "tag" true)

end

/-- `is_absolute` (microformats2.py:443): approximates
`urllib.parse.urlparse(url).netloc` — a non-empty host after `//`. -/
def is_absolute (u : JVal) : Bool :=
  match u with
  | .str s =>
      let rest : Option String :=
        match sAfterFirst s "://" with
        | some post => some post
        | none =>
            if sStartsWith s "//" then some (sDrop s 2)
            else none
      match rest with
      | some r =>
          !(r.toList.takeWhile
            (fun c => c ≠ '/' && c ≠ '?' && c ≠ '#')).isEmpty
      | none => false
  | _ => false

/-- Python `'h-cite' in set(quote.get('type', []))`: membership in the set
of a list; a string would yield its characters (never equal to a
multi-character tag), a non-iterable would raise (never exercised). -/
def inTypeSet (tag : String) (v : JVal) : Bool :=
  match v with
  | .arr xs => xs.contains (.str tag)
  | _ => false

/-- The item as seen after `mf2.setdefault('properties', {})`
(microformats2.py:388). -/
def jto_mf2 (mf2 : JVal) : JVal :=
  if mf2.dhas "properties" then mf2 else mf2.dset "properties" (.obj [])

/-- `props = mf2.get('properties', {})` after the setdefault
(microformats2.py:389). -/
def jto_props (mf2 : JVal) : JVal := (jto_mf2 mf2).dget "properties"

/-- `prop = first_props(props)` (microformats2.py:390). -/
def jto_prop (mf2 : JVal) : JVal := first_props (jto_props mf2)

/-- `rsvp = prop.get('rsvp')` (microformats2.py:391). -/
def jto_rsvp (mf2 : JVal) : JVal := (jto_prop mf2).dget "rsvp"

/-- The `mf2_type` computation (microformats2.py:414-427): explicit checks
for location, tag, follow and bookmark, then mf2util post type discovery on
the item without its photos. -/
def jto_mf2_type (C : Collab) (mf2 : JVal) : String :=
  let props := jto_props mf2
  let mf2_types := JVal.pyOr ((jto_mf2 mf2).dget "type") (.arr [])
  if pyIn (.str "h-geo") mf2_types || pyIn (.str "p-location") mf2_types
  then "location"
  else if props.dhas "tag-of" then "tag"
  else if props.dhas "follow-of" then "follow"
  else if props.dhas "bookmark-of" then "bookmark"
  else
    let without_photo := match props with
      | .obj _ => (jto_mf2 mf2).dset "properties" (props.dremove "photo")
      | _ => jto_mf2 mf2
    C.post_type_discovery without_photo

/-- `as_verb` (microformats2.py:429-431): the table verb, overridden to
`rsvp-<value>` when the item has an rsvp property. -/
def jto_as_verb (C : Collab) (mf2 : JVal) : JVal :=
  if (jto_rsvp mf2).truthy then
    JVal.str ("rsvp-" ++ pyStr (jto_rsvp mf2))
  else (MF2_TO_AS_TYPE_VERB (jto_mf2_type C mf2)).2

/-- The reply targets `in_reply_tos` (microformats2.py:433). -/
def jto_in_reply_tos (mf2 : JVal) : List String :=
  get_string_urls ((jto_props mf2).dgetD "in-reply-to" (.arr []))

/-- `as_type` (microformats2.py:434-435): the table objectType, overridden
to `issue` when a reply target is a GitHub repo URL. -/
def jto_as_type (C : Collab) (mf2 : JVal) : JVal :=
  if (jto_in_reply_tos mf2).any github_repo_url then JVal.str "issue"
  else (MF2_TO_AS_TYPE_VERB (jto_mf2_type C mf2)).1

/-- `urls = get_string_urls(props.get('url') or [])`
(microformats2.py:447). -/
def jto_urlsE (mf2 : JVal) : List String :=
  get_string_urls (JVal.pyOr ((jto_props mf2).dget "url") (.arr []))

/-- The `url` field of the produced AS1 object (microformats2.py:502):
first extracted URL, None when there is none. -/
def jto_urlField (mf2 : JVal) : JVal :=
  match jto_urlsE mf2 with
  | [] => .null
  | u :: _ => .str u

/-- The `urls` field of the produced AS1 object (microformats2.py:503):
the wrapped URL list when two or more were extracted, None otherwise. -/
def jto_urlsField (mf2 : JVal) : JVal :=
  if (jto_urlsE mf2).length > 1 then
    .arr ((jto_urlsE mf2).map (fun u => JVal.obj [("value", .str u)]))
  else .null

/-- The object literal built at microformats2.py:485-509 before the image,
location and activity post-processing steps. -/
def jto_obj0 (mf2 as_type as_verb stream locJ : JVal)
    (commentsJ tagsJ attachments : List JVal) : JVal :=
  .obj [
    ("id", (jto_prop mf2).dget "uid"),
    ("objectType", as_type),
    ("verb", as_verb),
    ("published", (jto_prop mf2).dgetD "published" (.str "")),
    ("updated", (jto_prop mf2).dgetD "updated" (.str "")),
    ("startTime", (jto_prop mf2).dget "start"),
    ("endTime", (jto_prop mf2).dget "end"),
    ("displayName", .str (get_text ((jto_prop mf2).dget "name"))),
    ("username", (jto_prop mf2).dget "nickname"),
    ("summary", .str (get_text ((jto_prop mf2).dget "summary"))),
    ("content", .str (get_html ((jto_prop mf2).dget "content"))),
    ("url", jto_urlField mf2),
    ("urls", jto_urlsField mf2),
    ("stream", .arr [stream]),
    ("location", locJ),
    ("replies", JVal.obj [("items", .arr commentsJ)]),
    ("tags", .arr tagsJ),
    ("attachments", .arr attachments)]

/-- The `obj.update(image)` step (microformats2.py:510-525 tail): the object
with its deduplicated absolute image URLs written in. -/
def jto_obj1 (obj0 : JVal) (images : List JVal) : JVal :=
  obj0.dset "image" (.arr images)

/-- The mf2util-interpretation location refinement
(microformats2.py:527-541): when the interpreted item carries a location
with parseable coordinates they are written into `obj['location']`. -/
def jto_obj2 (C : Collab) (mf2 obj1 : JVal) : JVal :=
  let interpreted := C.interpret (jto_mf2 mf2)
  if interpreted.truthy then
    let loc := interpreted.dget "location"
    if loc.truthy then
      let withType := (obj1.dget "location").dset "objectType" (.str "place")
      let lat := loc.dget "latitude"
      let lng := loc.dget "longitude"
      let loc2 :=
        if lat.truthy && lng.truthy then
          match C.to_float lat, C.to_float lng with
          | some fa, some fb =>
              (withType.dset "latitude" fa).dset "longitude" fb
          | _, _ => withType
        else withType
      obj1.dset "location" loc2
    else obj1
  else obj1

/-- The activity wrapper (microformats2.py:556-557): object targets and
actor written in. -/
def jto_obj3 (obj2 objVal author : JVal) : JVal :=
  (obj2.dset "object" objVal).dset "actor" author

/-- The tag-activity target (microformats2.py:560-561). -/
def jto_obj4 (mf2 obj3 : JVal) : JVal :=
  obj3.dset "target" (JVal.obj [("url", (jto_prop mf2).dget "tag-of")])

/-- The tag-activity result (microformats2.py:568-569): tags moved into the
object slot. -/
def jto_tag_result (obj4 : JVal) : JVal :=
  postprocess_object ((obj4.dremove "tags").dset "object"
    (obj4.dget "tags"))

/-- The tail of the activity branch (microformats2.py:556-569): object and
actor written in, then the tag-activity special case with its
NotImplementedError guard. -/
def jto_activity_finish (mf2 obj2 author objVal as_verb : JVal) :
    PyRes JVal :=
  let obj3 := jto_obj3 obj2 objVal author
  if as_verb = .str "tag" then
    let obj4 := jto_obj4 mf2 obj3
    if (obj4.dget "object").truthy then throw PyErr.notImpl
    else pure (jto_tag_result obj4)
  else pure (postprocess_object obj3)

/-- The non-activity result (microformats2.py:571-575): reply targets and
author written in. -/
def jto_plain_result (mf2 obj2 author : JVal) : JVal :=
  postprocess_object ((obj2.dset "inReplyTo"
    (.arr ((jto_in_reply_tos mf2).map (fun url =>
      JVal.obj [("url", .str url)])))).dset "author" author)

/-- `json_to_object` (microformats2.py:369): MF2 JSON item to AS1 object.
External collaborators (authorship, post-type discovery, location
interpretation, duration/size parsing) are the `Collab` oracles. -/
def json_to_object (C : Collab) (fuel : Nat) (actor : JVal) (mf2 : JVal) :
    PyRes JVal :=
  match fuel with
  | 0 => .error .fuel
  | fuel + 1 =>
    if !(mf2.truthy && mf2.isObj) then pure (.obj []) else do
      let mf2' := jto_mf2 mf2
      let props := jto_props mf2
      let prop := jto_prop mf2
      let mf2_author := prop.dget "author"
      let authorRes : PyRes JVal :=
        if mf2_author.truthy && mf2_author.isObj then
          json_to_object C fuel .null mf2_author
        else
          pure (
            let fa := C.find_author mf2'
            if fa.truthy then
              JVal.obj [("objectType", .str "person"),
                ("url", fa.dget "url"),
                ("displayName", fa.dget "name"),
                ("image", .arr [JVal.obj [("url", fa.dget "photo")]])]
            else .null)
      let authorConv ← authorRes
      let author := if authorConv.truthy then authorConv else actor
      let as_verb := jto_as_verb C mf2
      let as_type := jto_as_type C mf2
      let quotes :=
        ((JVal.pyIterate (mf2'.dgetD "children" (.arr []))) ++
         (JVal.pyIterate (props.dgetD "quotation-of" (.arr [])))).filter
          (fun quote => quote.isObj &&
            inTypeSet "h-cite" (quote.dgetD "type" (.arr [])))
      let attachments0 ← quotes.mapM (json_to_object C fuel .null)
      let durationV := JVal.pyOr (prop.dget "duration") (prop.dget "length")
      let duration : JVal :=
        if durationV.truthy then
          if is_int durationV then .int (pyToInt durationV)
          else
            match C.parse_iso8601_duration durationV with
            | some secs => .int secs
            | none => .null
        else durationV
      let bytes := size_to_bytes C (prop.dget "size")
      let bytesJ : JVal := match bytes with
        | some n => .int n
        | none => .null
      let mkAtts : String → List JVal := fun type =>
        (get_string_urls (props.dgetD type (.arr []))).map (fun url =>
          JVal.obj [("objectType", .str type),
            ("stream", JVal.obj [("url", .str url), ("duration", duration),
              ("size", bytesJ)])])
      let audioAtts := mkAtts "audio"
      let videoAtts := mkAtts "video"
      let attachments := attachments0 ++ audioAtts ++ videoAtts
      let stream : JVal :=
        if !videoAtts.isEmpty then (videoAtts.headI).dget "stream"
        else if !audioAtts.isEmpty then (audioAtts.headI).dget "stream"
        else .null
      let locJ ← json_to_object C fuel .null (prop.dget "location")
      let commentsJ ← (JVal.pyIterate (props.dgetD "comment" (.arr []))).mapM
        (json_to_object C fuel .null)
      let tagsJ ← (JVal.pyIterate (props.dgetD "category" (.arr []))).mapM
        (fun cat =>
          match cat with
          | .str s => pure (JVal.obj [("objectType", .str "hashtag"),
              ("displayName", .str s)])
          | _ => json_to_object C fuel .null cat)
      let obj0 := jto_obj0 mf2 as_type as_verb stream locJ commentsJ tagsJ
        attachments
      let imgAcc ← ((JVal.pyIterate (props.dgetD "photo" (.arr []))) ++
          (JVal.pyIterate (props.dgetD "featured" (.arr [])))).foldlM
        (fun (acc : List JVal × List JVal) photo => do
          let p2 := match photo with
            | .obj _ => JVal.pyOr (photo.dget "properties") photo
            | _ => photo
          let url := match photo with
            | .obj _ => JVal.pyOr (get_first p2 "value" .null)
                (get_first p2 "url" .null)
            | _ => photo
          let alt := match photo with
            | .obj _ => get_first p2 "alt" .null
            | _ => JVal.null
          if url.truthy then
            if url.isArr || url.isObj then throw PyErr.unhashable
            else if url ∈ acc.1 then pure acc
            else if is_absolute url then
              pure (url :: acc.1,
                acc.2 ++ [JVal.obj [("url", url), ("displayName", alt)]])
            else pure acc
          else pure acc) (([], []) : List JVal × List JVal)
      let obj2 := jto_obj2 C mf2 (jto_obj1 obj0 imgAcc.2)
      if as_type = .str "activity" then do
        let targetsRaw := (["follow-of", "like", "like-of", "repost",
            "repost-of", "in-reply-to", "invitee"] : List String).flatMap
          (fun f => JVal.pyIterate (props.dgetD f (.arr [])))
        let objects ← targetsRaw.foldlM
          (fun (objects : List JVal) target => do
            let t ←
              if target.isObj then json_to_object C fuel .null target
              else pure (JVal.obj [("url", target)])
            pure (if t ∈ objects then objects else objects ++ [t])) []
        let objects2 := objects ++
          (get_string_urls (props.dgetD "bookmark-of" (.arr []))).map
            (fun url => JVal.obj [("objectType", .str "bookmark"),
              ("targetUrl", .str url)])
        let objVal : JVal :=
          if objects2.length = 1 then objects2.headI else .arr objects2
        jto_activity_finish mf2 obj2 author objVal as_verb
      else
        pure (jto_plain_result mf2 obj2 author)

/-- `json_to_html` (microformats2.py:657): MF2 JSON to HTML through the
fixed HENTRY template (h-cards go through `hcard_to_html`). -/
def json_to_html (C : Collab) (fuel : Nat) (obj : JVal)
    (parent_props : List String) : PyRes String :=
  match fuel with
  | 0 => .error .fuel
  | fuel + 1 =>
    if !obj.truthy then pure "" else
    let types := obj.dgetD "type" (.arr [])
    if pyIn (.str "h-card") types then pure (hcard_to_html obj parent_props)
    else do
      let props0 := obj.dgetD "properties" (.obj [])
      let links := (["in-reply-to", "tag-of"] : List String).flatMap (fun p =>
        (sortStable (fun a b => a < b)
          (get_string_urls (props0.dgetD p (.arr [])))).map (LINK p))
      let prop0 := first_props props0
      let prop :=
        if prop0.dhas "uid" then prop0 else prop0.dset "uid" (.str "")
      let author := prop.dget "author"
      let rsvp := prop.dget "rsvp"
      let props1 :=
        if rsvp.truthy then
          let withName :=
            if !(props0.dget "name").truthy then
              props0.dset "name" (.arr [
                if rsvp = .str "yes" then .str "is attending."
                else if rsvp = .str "no" then .str "is not attending."
                else if rsvp = .str "maybe" then .str "might attend."
                else .null])
            else props0
          match withName.dget "name" with
          | .arr (h :: t) =>
              withName.dset "name" (.arr (.str
                ("<data class=\"p-rsvp\" value=\"" ++ pyStr rsvp ++ "\">" ++
                 pyStr h ++ "</data>") :: t))
          | _ => withName
        else if (props0.dget "invitee").truthy &&
            !(props0.dget "name").truthy then
          props0.dset "name" (.arr [.str "invited"])
        else props0
      let mkTargets : String → PyRes (List String) := fun mftype =>
        (JVal.pyIterate (props1.dgetD (mftype ++ "-of") (.arr []))).mapM
          (fun target =>
            match target with
            | .str s => pure ("<a class=\"u-" ++ mftype ++ "-of\" href=\"" ++
                s ++ "\"></a>")
            | _ => json_to_html C fuel target ["u-" ++ mftype ++ "-of"])
      let childFol ← mkTargets "follow"
      let childLike ← mkTargets "like"
      let childRep ← mkTargets "repost"
      let content_html := get_html (prop.dgetD "content" (.obj []))
      let pcs : List String × JVal :=
        if content_html ≠ "" then
          ("e-content" ::
            (if !(props1.dget "name").truthy then ["p-name"] else []), props1)
        else
          ([],
            if !(props1.dget "name").truthy then
              props1.dset "name" (.arr [.str ""])
            else props1)
      let content_classes := pcs.1
      let props2 := pcs.2
      let summary :=
        if (prop.dget "summary").truthy then
          "<div class=\"p-summary\">" ++ pyStr (prop.dget "summary") ++
            "</div>"
        else ""
      let attachments :=
        (JVal.pyIterate (props2.dgetD "photo" (.arr []))).map
          (fun v => img v (.str "")) ++
        (JVal.pyIterate (props2.dgetD "video" (.arr []))).map
          (fun v => vid v (.str "")) ++
        (JVal.pyIterate (props2.dgetD "audio" (.arr []))).map aud
      let sizes := (JVal.pyIterate (props2.dgetD "size" (.arr []))).filterMap
        (fun size =>
          let bytes := size_to_bytes C size
          if size.truthy then
            some ("<data class=\"p-size\" value=\"" ++
              (match bytes with
               | some n => pyStr (.int n)
               | none => "None") ++ "\">" ++ C.format_size bytes ++ "</data>")
          else none)
      let cats := JVal.pyIterate (props2.dgetD "category" (.arr []))
      let people := (cats.filter (fun cat => cat.isObj &&
          pyIn (.str "h-card") (cat.dget "type") &&
          !(cat.dget "startIndex").truthy)).map
        (fun cat => hcard_to_html cat ["u-category", "h-card"])
      let tagsHtml := cats.filterMap (fun cat =>
        match cat with
        | .str s => some ("<span class=\"u-category\">" ++ s ++ "</span>")
        | _ => none)
      let commentsH ← (JVal.pyIterate (props2.dgetD "comment" (.arr []))).mapM
        (fun c => json_to_html C fuel c ["p-comment"])
      let likeCh ← (["like", "repost"] : List String).mapM (fun verb =>
        if !(props2.dhas (verb ++ "-of")) then
          let vals := JVal.pyIterate (props2.dgetD verb (.arr []))
          match vals with
          | v0 :: _ =>
              if v0.isObj then
                vals.mapM (fun v => json_to_html C fuel v ["u-" ++ verb])
              else pure []
          | [] => pure []
        else pure [])
      let childrenObjH ← (JVal.pyIterate (obj.dgetD "children" (.arr []))).mapM
        (fun c => json_to_html C fuel c [])
      let location : JVal :=
        match prop.dget "location" with
        | .str s => JVal.obj [("properties",
            JVal.obj [("name", .arr [.str s])])]
        | v => v
      let start := JVal.pyIterate (props2.dgetD "start" (.arr []))
      let endL := JVal.pyIterate (props2.dgetD "end" (.arr []))
      let event_times :=
        start.map (fun t => "  <time class=\"dt-start\">" ++ pyStr t ++
          "</time>") ++
        (if !start.isEmpty && !endL.isEmpty then ["  to"] else []) ++
        endL.map (fun t => "  <time class=\"dt-end\">" ++ pyStr t ++
          "</time>")
      let childrenAll := childFol ++ childLike ++ childRep ++
        likeCh.flatten ++ childrenObjH
      let invitees := (JVal.pyIterate (props2.dgetD "invitee" (.arr []))).map
        (fun i => hcard_to_html i ["p-invitee"])
      pure (HENTRY
        (String.intercalate " " (parent_props ++ (JVal.pyIterate types).map pyStr))
        (pyStr (prop.dget "uid"))
        summary
        (maybe_datetime (prop.dget "published") "dt-published")
        (maybe_datetime (prop.dget "updated") "dt-updated")
        (hcard_to_html author ["p-author"])
        (maybe_linked_name props2)
        (String.intercalate " " content_classes)
        (String.intercalate "\n" invitees)
        content_html
        (String.intercalate "\n" attachments)
        (String.intercalate "\n" sizes)
        (String.intercalate "\n" event_times)
        (hcard_to_html location ["p-location"])
        (String.intercalate "\n" (people ++ tagsHtml))
        (String.intercalate "\n" links)
        (String.intercalate "\n" childrenAll)
        (String.intercalate "\n" commentsH))

/-- Rewrite the elements of the list stored under an existing key; a missing
key or a non-list value is left alone. -/
def mapProp (p : JVal) (k : String) (f : JVal → JVal) : JVal :=
  match p.dget k with
  | .arr xs => p.dset k (.arr (xs.map f))
  | _ => p

/-- The state of a `json_to_html` input after the call, in the tree model of
the Python heap (JSON-decoded input has no internal sharing).  Traced from
the source: `json_to_html` copies `properties` only shallowly
(microformats2.py:680), so `props['name'][0] = ...` at line 700 writes into
the caller's name list whenever the item has a truthy rsvp value and a
truthy pre-existing `name` (if `name` was absent/falsy, line 697 first
rebinds the copy to a fresh list, which shields the input).  The recursive
renders of follow/like/repost-of targets, embedded likes/reposts, comments
and children apply the same effect to those sub-items; every other
statement reads, or writes only freshly constructed values
(`hcard_to_html` and the other helpers are read-only). -/
def json_to_html_after (fuel : Nat) (obj : JVal) : JVal :=
  match fuel with
  | 0 => obj
  | fuel + 1 =>
    if !obj.truthy then obj
    else if pyIn (.str "h-card") (obj.dgetD "type" (.arr [])) then obj
    else
      let props := obj.dgetD "properties" (.obj [])
      let prop0 := first_props props
      let prop :=
        if prop0.dhas "uid" then prop0 else prop0.dset "uid" (.str "")
      let rsvp := prop.dget "rsvp"
      let p1 :=
        if rsvp.truthy && (props.dget "name").truthy then
          match props.dget "name" with
          | .arr (h :: t) =>
              props.dset "name" (.arr (.str
                ("<data class=\"p-rsvp\" value=\"" ++ pyStr rsvp ++ "\">" ++
                 pyStr h ++ "</data>") :: t))
          | _ => props
        else props
      let after := json_to_html_after fuel
      let mapTargets := fun (p : JVal) (mftype : String) =>
        mapProp p (mftype ++ "-of") (fun t =>
          match t with
          | .str _ => t
          | _ => after t)
      let p2 := mapTargets (mapTargets (mapTargets p1 "follow") "like")
        "repost"
      let p3 := mapProp p2 "comment" after
      let p4 := (["like", "repost"] : List String).foldl (fun p verb =>
        if !(p.dhas (verb ++ "-of")) then
          match p.dget verb with
          | .arr (v0 :: vs) =>
              if v0.isObj then p.dset verb (.arr ((v0 :: vs).map after))
              else p
          | _ => p
        else p) p3
      let obj1 :=
        if (obj.dget "properties").isObj then obj.dset "properties" p4
        else obj
      match obj1.dget "children" with
      | .arr cs => obj1.dset "children" (.arr (cs.map after))
      | _ => obj1

/-- The state of a `json_to_object` input after the call.  Traced from the
source: the function shallow-copies the item before `setdefault`
(microformats2.py:388), deep-copies before popping `photo` (line 429), and
every later write (`obj[...]`, `obj['location'].update`, `obj.pop`,
`postprocess_object`) targets the freshly built output object, whose
containers come from constructors or from `trim_nulls` (which rebuilds
containers).  The collaborators are side-effect-free per spec section 5.
Hence the input is returned unchanged. -/
def json_to_object_after (mf2 : JVal) : JVal := mf2

def listNodup : List String → Bool
  | [] => true
  | x :: xs => !xs.contains x && listNodup xs

def isStrOrNull (v : JVal) : Bool := v.isStr || v == .null

def strListB : JVal → Bool
  | .arr xs => xs.all JVal.isStr
  | _ => false

mutual

/-- Well-formedness of an AS1 object per the data model (spec sections 3
and 6): a JSON record with unique keys whose structured fields (`tags`,
`attachments`, `object`, `inReplyTo`, `urls`, `replies.items`, `image`,
`stream`, ...) hold records, whose textual fields (`content`, `url`,
`position`, ...) hold strings, and whose mention offsets are integers.
The recursion is fuel-bounded (each recursive call passes a value whose
`jsize` is strictly smaller, so `fuel = 4 * jsize + 4` never runs out,
see `WFas1`). -/
def WFas1F (fuel : Nat) (v : JVal) : Bool :=
  match fuel with
  | 0 => false
  | fuel + 1 =>
    match v with
    | .obj kvs => listNodup (kvs.map Prod.fst) && WFas1FieldsF fuel kvs
    | _ => true

def WFas1FieldsF (fuel : Nat) (kvs : List (String × JVal)) : Bool :=
  match fuel with
  | 0 => false
  | fuel + 1 =>
    match kvs with
    | [] => true
    | (k, v) :: rest => WFas1FieldF fuel k v && WFas1FieldsF fuel rest

def WFas1FieldF (fuel : Nat) (k : String) (v : JVal) : Bool :=
  match fuel with
  | 0 => false
  | fuel + 1 =>
    if k = "tags" || k = "attachments" then WFobjListF fuel v
    else if k = "object" then
      v == .null || WFobjOneF fuel v || WFobjListF fuel v
    else if k = "inReplyTo" then v == .null || WFobjListF fuel v
    else if k = "urls" then WFobjListF fuel v
    else if k = "upstreamDuplicates" then strListB v
    else if k = "items" then WFanyListF fuel v
    else if k = "image" || k = "stream" then
      v == .null || WFobjOneF fuel v || WFobjListF fuel v
    else if k = "replies" then v == .null || WFobjOneF fuel v
    else if k = "content" || k = "position" || k = "url" ||
        k = "targetUrl" || k = "displayName" || k = "title" ||
        k = "value" then
      isStrOrNull v
    else if k = "id" then !(v.isArr || v.isObj)
    else if k = "startIndex" || k = "length" then
      match v with
      | .int _ => true
      | _ => false
    else if k = "author" || k = "actor" || k = "location" ||
        k = "context" then
      WFas1F fuel v
    else true

def WFobjOneF (fuel : Nat) (v : JVal) : Bool :=
  match fuel with
  | 0 => false
  | fuel + 1 =>
    match v with
    | .obj kvs => listNodup (kvs.map Prod.fst) && WFas1FieldsF fuel kvs
    | _ => false

def WFobjListF (fuel : Nat) (v : JVal) : Bool :=
  match fuel with
  | 0 => false
  | fuel + 1 =>
    match v with
    | .arr xs => WFobjElemsF fuel xs
    | _ => false

def WFobjElemsF (fuel : Nat) (xs : List JVal) : Bool :=
  match fuel with
  | 0 => false
  | fuel + 1 =>
    match xs with
    | [] => true
    | x :: rest => WFobjOneF fuel x && WFobjElemsF fuel rest

def WFanyListF (fuel : Nat) (v : JVal) : Bool :=
  match fuel with
  | 0 => false
  | fuel + 1 =>
    match v with
    | .arr xs => WFas1ElemsF fuel xs
    | _ => false

def WFas1ElemsF (fuel : Nat) (xs : List JVal) : Bool :=
  match fuel with
  | 0 => false
  | fuel + 1 =>
    match xs with
    | [] => true
    | x :: rest => WFas1F fuel x && WFas1ElemsF fuel rest

end

/-- Well-formed AS1 object; the fuel `4 * jsize v + 4` dominates the
recursion depth (at most four fuel steps are consumed between one value
node and the next, and `jsize` strictly decreases into every child). -/
def WFas1 (v : JVal) : Bool := WFas1F (4 * jsize v + 4) v

/-- A concrete collaborator valuation for witness instances: authorship
discovery finds nothing, post type discovery answers `note`, mf2util
interpretation is empty, and the numeric parsers fail. -/
def trivCollab : Collab :=
  ⟨fun _ => .null, fun _ => "note", fun _ => .null, fun _ => none,
   fun _ => none, fun _ => "", fun _ => none, fun s => s⟩

/-- The mention-splicing scenario object: content `hi @a and @b` with two
inline mention tags, the second at a variable startIndex. -/
def c1obj (si : Int) : JVal := .obj [
  ("content", .str "hi @a and @b"),
  ("tags", .arr [
    .obj [("objectType", .str "mention"), ("url", .str "http://u1"),
      ("startIndex", .int 3), ("length", .int 2)],
    .obj [("objectType", .str "mention"), ("url", .str "http://u2"),
      ("startIndex", .int si), ("length", .int 2)]])]

/-- A tag activity with an id and an in-reply-to target. -/
def c2tag : JVal := .obj [
  ("id", .str "tag:x"),
  ("objectType", .str "activity"), ("verb", .str "tag"),
  ("object", .arr [.obj [("url", .str "http://t/1")]]),
  ("target", .obj [("url", .str "http://t/2")]),
  ("inReplyTo", .arr [.obj [("url", .str "http://t/3")]])]

/-- A plain note with an id. -/
def c2note : JVal := .obj [
  ("id", .str "tag:n1"), ("objectType", .str "note"),
  ("content", .str "hello")]

/-- The MF2 item `object_to_json` produces from `c2note` under default
options. -/
def c2mf2 : JVal := .obj [
  ("type", .arr [.str "h-entry"]),
  ("properties", .obj [
    ("uid", .arr [.str "tag:n1"]),
    ("content", .arr [.str "hello"])])]

/-- The AS1 object `json_to_object` produces back from `c2mf2`. -/
def c2as1 : JVal := .obj [
  ("id", .str "tag:n1"), ("objectType", .str "note"),
  ("content", .str "hello")]

/-- An object whose stream carries a non-integer duration value. -/
def c3obj : JVal := .obj [
  ("objectType", .str "note"),
  ("stream", .obj [("duration", .str "PT1M")])]

/-- An MF2 rsvp item with a name, the mutation scenario input. -/
def c4item : JVal := .obj [
  ("type", .arr [.str "h-entry"]),
  ("properties", .obj [
    ("rsvp", .arr [.str "yes"]),
    ("name", .arr [.str "going"])])]

/-- The state of `c4item` after `json_to_html`: the first `name` value has
been overwritten in place with the rendered p-rsvp data element. -/
def c4itemAfter : JVal := .obj [
  ("type", .arr [.str "h-entry"]),
  ("properties", .obj [
    ("rsvp", .arr [.str "yes"]),
    ("name", .arr
      [.str "<data class=\"p-rsvp\" value=\"yes\">going</data>"])])]

/-- An MF2 item combining `tag-of` with a `like-of` target but carrying no
`in-reply-to`. -/
def c5item (t u : String) : JVal := .obj [("properties", .obj [
  ("tag-of", .arr [.str t]),
  ("like-of", .arr [.str u])])]

/-- The like-activity scenario input. -/
def c6obj : JVal := .obj [
  ("objectType", .str "activity"), ("verb", .str "like"),
  ("object", .obj [("url", .str "http://x/1")])]

/-- The MF2 item `object_to_json` produces from `c6obj` under default
options (synthesize_content on). -/
def c6mf2 : JVal := .obj [
  ("type", .arr [.str "h-entry"]),
  ("properties", .obj [
    ("content", .arr [.obj
      [("html", .str "<a href=\"http://x/1\">likes this.</a>")]]),
    ("like-of", .arr [.str "http://x/1"])])]

/-- An MF2 item whose rsvp property has first value `yes`. -/
def c7item : JVal := .obj [("properties", .obj [
  ("rsvp", .arr [.str "yes"]),
  ("name", .arr [.str "going"])])]

/-- An event object. -/
def c8event : JVal := .obj [("objectType", .str "event"),
  ("displayName", .str "party")]

/-- An MF2 item whose url property carries two URLs. -/
def c10item2 : JVal := .obj [("properties", .obj [
  ("url", .arr [.str "http://a/1", .str "http://a/2"]),
  ("name", .arr [.str "two"])])]

/-- An MF2 item whose url property carries one empty-string URL. -/
def c10item0 : JVal := .obj [("properties", .obj [
  ("url", .arr [.str ""]), ("name", .arr [.str "zero"])])]

/-- The AS1 object `json_to_object` produces from `c7item`. -/
def c7as1 : JVal := .obj [
  ("objectType", .str "note"), ("verb", .str "rsvp-yes"),
  ("displayName", .str "going")]

/-- Conversion options with a sequence-valued `entry_class`. -/
def c8opts : OOpts := ⟨true, .arr [.str "h-cite"], .null, true⟩

/-- The MF2 item `object_to_json` produces from `c8event` under
`c8opts`. -/
def c8mf2 : JVal := .obj [
  ("type", .arr [.str "h-cite"]),
  ("properties", .obj [("name", .arr [.str "party"])])]

/-- The AS1 object `json_to_object` produces from `c10item0`. -/
def c10as0 : JVal := .obj [
  ("objectType", .str "note"), ("displayName", .str "zero")]

/-- The AS1 object `json_to_object` produces from `c10item2`. -/
def c10as2 : JVal := .obj [
  ("objectType", .str "note"), ("displayName", .str "two"),
  ("url", .str "http://a/1"),
  ("urls", .arr [.obj [("value", .str "http://a/1")],
                 .obj [("value", .str "http://a/2")]])]

section Lemmas

theorem jsize_pos (v : JVal) : 0 < jsize v := by
  cases v <;> simp [jsize]

theorem jsize_mem_kvs (kv : String × JVal) (kvs : List (String × JVal))
    (h : kv ∈ kvs) : jsize kv.2 ≤ jsizeKVs kvs := by
  induction kvs with
  | nil => simp at h
  | cons hd tl ih =>
      rcases List.mem_cons.mp h with h | h
      · subst h
        simp [jsizeKVs]
        omega
      · have := ih h
        simp [jsizeKVs]
        omega

theorem jsize_dget_le (v : JVal) (k : String) :
    jsize (v.dget k) ≤ jsize v := by
  cases v with
  | obj kvs =>
      simp only [JVal.dget]
      cases h : kvs.find? (fun kv => kv.1 = k) with
      | none =>
          simp only [Option.map_none', Option.getD_none]
          simp [jsize]
      | some kv =>
          simp only [Option.map_some', Option.getD_some]
          have hm : kv ∈ kvs := List.mem_of_find?_eq_some h
          have h1 := jsize_mem_kvs kv kvs hm
          simp only [jsize]
          omega
  | null =>
      simp only [JVal.dget, jsize]
      omega
  | bool b =>
      simp only [JVal.dget, jsize]
      omega
  | int n =>
      simp only [JVal.dget, jsize]
      omega
  | str s =>
      simp only [JVal.dget, jsize]
      omega
  | arr xs =>
      simp only [JVal.dget, jsize]
      omega

theorem jsize_pyOr_le (a b : JVal) (c : Nat) (ha : jsize a ≤ c)
    (hb : jsize b ≤ c) : jsize (JVal.pyOr a b) ≤ c := by
  unfold JVal.pyOr
  split <;> assumption

theorem find?_dsetL_ne (kvs : List (String × JVal)) (k k' : String)
    (v : JVal) (h : k ≠ k') :
    (dsetL kvs k v).find? (fun kv => kv.1 = k') =
      kvs.find? (fun kv => kv.1 = k') := by
  induction kvs with
  | nil =>
      show List.find? _ [(k, v)] = List.find? _ []
      rw [List.find?_cons_of_neg _ (by simp [h])]
  | cons hd tl ih =>
      obtain ⟨k1, v1⟩ := hd
      by_cases h1 : k1 = k
      · subst h1
        have hd : dsetL ((k1, v1) :: tl) k1 v = (k1, v) :: tl := by
          simp [dsetL]
        rw [hd]
        rw [List.find?_cons_of_neg _ (by simp [h]),
            List.find?_cons_of_neg _ (by simp [h])]
      · have hd : dsetL ((k1, v1) :: tl) k v = (k1, v1) :: dsetL tl k v := by
          simp [dsetL, h1]
        rw [hd]
        by_cases h2 : k1 = k'
        · rw [List.find?_cons_of_pos _ (by simp [h2]),
              List.find?_cons_of_pos _ (by simp [h2])]
        · rw [List.find?_cons_of_neg _ (by simp [h2]),
              List.find?_cons_of_neg _ (by simp [h2])]
          exact ih

theorem dget_dset_ne (d : JVal) (k k' : String) (v : JVal) (h : k ≠ k') :
    (d.dset k v).dget k' = d.dget k' := by
  cases d <;> simp [JVal.dset, JVal.dget]
  rw [find?_dsetL_ne _ _ _ _ h]

theorem find?_dsetL_self (kvs : List (String × JVal)) (k : String)
    (v : JVal) :
    (dsetL kvs k v).find? (fun kv => kv.1 = k) = some (k, v) := by
  induction kvs with
  | nil =>
      show List.find? _ [(k, v)] = _
      rw [List.find?_cons_of_pos _ (by simp)]
  | cons hd tl ih =>
      obtain ⟨k1, v1⟩ := hd
      by_cases h1 : k1 = k
      · subst h1
        have hd : dsetL ((k1, v1) :: tl) k1 v = (k1, v) :: tl := by
          simp [dsetL]
        rw [hd]
        rw [List.find?_cons_of_pos _ (by simp)]
      · have hd : dsetL ((k1, v1) :: tl) k v = (k1, v1) :: dsetL tl k v := by
          simp [dsetL, h1]
        rw [hd]
        rw [List.find?_cons_of_neg _ (by simp [h1])]
        exact ih

theorem dget_dset_self (d : JVal) (k : String) (v : JVal)
    (hd : d.isObj = true) : (d.dset k v).dget k = v := by
  cases d <;> simp_all [JVal.isObj, JVal.dset, JVal.dget]
  rw [find?_dsetL_self]
  rfl

theorem find?_filter_ne (tl : List (String × JVal)) (k k' : String)
    (h : k ≠ k') :
    (tl.filter (fun kv => kv.1 ≠ k)).find? (fun kv => kv.1 = k') =
      tl.find? (fun kv => kv.1 = k') := by
  induction tl with
  | nil => simp
  | cons hd tl ih =>
      obtain ⟨k1, v1⟩ := hd
      by_cases h1 : k1 = k
      · subst h1
        rw [List.filter_cons_of_neg (by simp)]
        rw [List.find?_cons_of_neg _ (by simp; exact h)]
        exact ih
      · rw [List.filter_cons_of_pos (by simp [h1])]
        by_cases h2 : k1 = k'
        · rw [List.find?_cons_of_pos _ (by simp [h2]),
              List.find?_cons_of_pos _ (by simp [h2])]
        · rw [List.find?_cons_of_neg _ (by simp [h2]),
              List.find?_cons_of_neg _ (by simp [h2])]
          exact ih

theorem dget_dremove_ne (d : JVal) (k k' : String) (h : k ≠ k') :
    (d.dremove k).dget k' = d.dget k' := by
  cases d with
  | obj kvs =>
      simp only [JVal.dremove, JVal.dget]
      rw [find?_filter_ne _ _ _ h]
  | null => rfl
  | bool b => rfl
  | int n => rfl
  | str s => rfl
  | arr xs => rfl

theorem dhas_of_dget_ne_null (d : JVal) (k : String)
    (h : d.dget k ≠ .null) : d.dhas k = true := by
  cases d with
  | obj kvs =>
      simp only [JVal.dget] at h
      rcases hf : kvs.find? (fun kv => kv.1 = k) with _ | kv
      · rw [hf] at h
        simp at h
      · have hm := List.mem_of_find?_eq_some hf
        have hp := List.find?_some hf
        simp only [JVal.dhas, List.any_eq_true]
        exact ⟨kv, hm, hp⟩
  | null => simp [JVal.dget] at h
  | bool b => simp [JVal.dget] at h
  | int n => simp [JVal.dget] at h
  | str s => simp [JVal.dget] at h
  | arr xs => simp [JVal.dget] at h

theorem truthy_of_dget_ne_null (d : JVal) (k : String)
    (h : d.dget k ≠ .null) : d.truthy = true := by
  cases d with
  | obj kvs =>
      cases kvs with
      | nil => simp [JVal.dget] at h
      | cons hd tl => simp [JVal.truthy]
  | null => simp [JVal.dget] at h
  | bool b => simp [JVal.dget] at h
  | int n => simp [JVal.dget] at h
  | str s => simp [JVal.dget] at h
  | arr xs => simp [JVal.dget] at h

theorem isObj_of_dget_ne_null (d : JVal) (k : String)
    (h : d.dget k ≠ .null) : d.isObj = true := by
  cases d <;> simp_all [JVal.dget, JVal.isObj]

theorem dgetProp_setProp_ne (r : JVal) (k k' : String) (v : JVal)
    (h : k ≠ k') : ((setProp r k v).dget "properties").dget k' =
      (r.dget "properties").dget k' := by
  unfold setProp
  cases r with
  | obj kvs =>
      rw [dget_dset_self _ _ _ (by simp [JVal.isObj])]
      rw [dget_dset_ne _ _ _ _ h]
  | null => rfl
  | bool b => rfl
  | int n => rfl
  | str s => rfl
  | arr xs => rfl

theorem dget_setProp_top (r : JVal) (k k' : String) (v : JVal)
    (h : k' ≠ "properties") : (setProp r k v).dget k' = r.dget k' := by
  unfold setProp
  exact dget_dset_ne _ _ _ _ (fun he => h he.symm)

theorem keys_trimNullsKVs_sub (kvs : List (String × JVal)) :
    ∀ x ∈ (trimNullsKVs kvs).map Prod.fst, x ∈ kvs.map Prod.fst := by
  induction kvs with
  | nil => simp [trimNullsKVs]
  | cons hd tl ih =>
      obtain ⟨k1, v1⟩ := hd
      intro x hx
      simp only [trimNullsKVs] at hx
      split at hx
      · simp only [List.map_cons, List.mem_cons]
        exact Or.inr (ih x hx)
      · simp only [List.map_cons, List.mem_cons] at hx ⊢
        rcases hx with hx | hx
        · exact Or.inl hx
        · exact Or.inr (ih x hx)

theorem dget_trim_obj (kvs : List (String × JVal)) (k : String)
    (h : listNodup (kvs.map Prod.fst) = true) :
    (trim_nulls (.obj kvs)).dget k =
      (if (trim_nulls ((JVal.obj kvs).dget k)).isNullish then JVal.null
       else trim_nulls ((JVal.obj kvs).dget k)) := by
  induction kvs with
  | nil => simp [trim_nulls, trimNullsKVs, JVal.dget, JVal.isNullish]
  | cons hd tl ih =>
      obtain ⟨k1, v1⟩ := hd
      simp only [List.map_cons, listNodup, Bool.and_eq_true,
        Bool.not_eq_true'] at h
      obtain ⟨hnm, hnd⟩ := h
      have hnotmem : k1 ∉ tl.map Prod.fst := by simpa using hnm
      by_cases hk : k1 = k
      · subst hk
        have hrhs : (JVal.obj ((k1, v1) :: tl)).dget k1 = v1 := by
          simp only [JVal.dget]
          rw [List.find?_cons_of_pos _ (by simp)]
          rfl
        rw [hrhs]
        by_cases hn : (trim_nulls v1).isNullish
        · have hz : (trim_nulls (JVal.obj ((k1, v1) :: tl))).dget k1 =
              JVal.null := by
            show (JVal.obj (trimNullsKVs ((k1, v1) :: tl))).dget k1 = _
            simp only [trimNullsKVs, hn, if_pos]
            simp only [JVal.dget]
            have hfn : (trimNullsKVs tl).find? (fun kv => kv.1 = k1) =
                none := by
              rw [List.find?_eq_none]
              intro kv hm
              have := keys_trimNullsKVs_sub tl kv.1
                (List.mem_map_of_mem Prod.fst hm)
              simp only [decide_eq_true_eq]
              intro he
              exact hnotmem (he ▸ this)
            rw [hfn]
            rfl
          rw [hz, if_pos hn]
        · have hz : (trim_nulls (JVal.obj ((k1, v1) :: tl))).dget k1 =
              trim_nulls v1 := by
            show (JVal.obj (trimNullsKVs ((k1, v1) :: tl))).dget k1 = _
            simp only [trimNullsKVs, hn, if_neg, Bool.not_eq_true]
            simp only [JVal.dget]
            rw [List.find?_cons_of_pos _ (by simp)]
            rfl
          rw [hz, if_neg (by simp [hn])]
      · have hrhs : (JVal.obj ((k1, v1) :: tl)).dget k =
            (JVal.obj tl).dget k := by
          simp only [JVal.dget]
          rw [List.find?_cons_of_neg _ (by simp [hk])]
        rw [hrhs]
        have hlhs : (trim_nulls (JVal.obj ((k1, v1) :: tl))).dget k =
            (trim_nulls (JVal.obj tl)).dget k := by
          show (JVal.obj (trimNullsKVs ((k1, v1) :: tl))).dget k =
            (JVal.obj (trimNullsKVs tl)).dget k
          simp only [trimNullsKVs]
          split
          · rfl
          · simp only [JVal.dget]
            rw [List.find?_cons_of_neg _ (by simp [hk])]
        rw [hlhs]
        exact ih hnd

theorem find?_map_keyfix (f : (String × JVal) → (String × JVal))
    (hf : ∀ kv, (f kv).1 = kv.1) (k : String) :
    ∀ l : List (String × JVal),
      (l.map f).find? (fun kv => kv.1 = k) =
        (l.find? (fun kv => kv.1 = k)).map f := by
  intro l
  induction l with
  | nil => simp
  | cons hd tl ih =>
      by_cases hk : hd.1 = k
      · rw [List.map_cons, List.find?_cons_of_pos _ (by simp [hf, hk]),
            List.find?_cons_of_pos _ (by simp [hk])]
        rfl
      · rw [List.map_cons, List.find?_cons_of_neg _ (by simp [hf, hk]),
            List.find?_cons_of_neg _ (by simp [hk])]
        exact ih

theorem dget_first_props (kvs : List (String × JVal)) (k : String)
    (hk : (JVal.obj kvs).dhas k = true) :
    (first_props (.obj kvs)).dget k = get_first (.obj kvs) k (.str "") := by
  cases kvs with
  | nil => simp [JVal.dhas] at hk
  | cons hd tl =>
      simp only [first_props]
      rw [if_neg (by simp)]
      simp only [JVal.dget]
      rw [find?_map_keyfix
        (fun kv => (kv.1, get_first (.obj (hd :: tl)) kv.1 (.str "")))
        (fun kv => rfl) k (hd :: tl)]
      simp only [JVal.dhas, List.any_eq_true, decide_eq_true_eq] at hk
      obtain ⟨kv, hm, hkv⟩ := hk
      rcases hf : (hd :: tl).find? (fun kv => kv.1 = k) with _ | kv0
      · rw [List.find?_eq_none] at hf
        exact absurd (by simpa using hkv) (hf kv hm)
      · have := List.find?_some hf
        simp only [decide_eq_true_eq] at this
        rw [hf]
        simp [Function.comp, this]

theorem bind_ok {α β : Type} {x : Except PyErr α} {f : α → Except PyErr β}
    {b : β} (h : (x >>= f) = .ok b) : ∃ a, x = .ok a ∧ f a = .ok b := by
  cases x with
  | error e => simp [Bind.bind, Except.bind] at h
  | ok a => exact ⟨a, rfl, by simpa [Bind.bind, Except.bind] using h⟩

theorem mapM_ok_mem {α β : Type} {f : α → Except PyErr β} :
    ∀ {l : List α} {bs : List β}, l.mapM f = .ok bs →
      ∀ b ∈ bs, ∃ a ∈ l, f a = .ok b := by
  intro l
  induction l with
  | nil =>
      intro bs h b hb
      simp only [List.mapM_nil] at h
      have : bs = [] := by
        simpa [Pure.pure, Except.pure] using h.symm
      subst this
      simp at hb
  | cons a l ih =>
      intro bs h b hb
      rw [List.mapM_cons] at h
      obtain ⟨b1, h1, h2⟩ := bind_ok h
      obtain ⟨bs1, h3, h4⟩ := bind_ok h2
      have hbs : bs = b1 :: bs1 := by
        simpa [Pure.pure, Except.pure] using h4.symm
      subst hbs
      rcases List.mem_cons.mp hb with hb | hb
      · subst hb
        exact ⟨a, by simp, h1⟩
      · obtain ⟨a1, hm, hfa⟩ := ih h3 b hb
        exact ⟨a1, by simp [hm], hfa⟩

theorem dget_properties_setProp (r : JVal) (k : String) (v : JVal) :
    (setProp r k v).dget "properties" = (r.dget "properties").dset k v := by
  cases r with
  | obj kvs =>
      unfold setProp
      rw [dget_dset_self _ _ _ (by simp [JVal.isObj])]
  | null => rfl
  | bool b => rfl
  | int n => rfl
  | str s => rfl
  | arr xs => rfl

theorem props_foldl_setProp (ws : List (String × JVal)) (r : JVal) :
    ((ws.foldl (fun r kv => setProp r kv.1 kv.2) r).dget "properties") =
      ws.foldl (fun p kv => p.dset kv.1 kv.2) (r.dget "properties") := by
  induction ws generalizing r with
  | nil => rfl
  | cons w ws ih =>
      simp only [List.foldl_cons]
      rw [ih, dget_properties_setProp]

theorem dget_foldl_dset_ne (ws : List (String × JVal)) (p : JVal)
    (k : String) (h : ∀ w ∈ ws, w.1 ≠ k) :
    (ws.foldl (fun p kv => p.dset kv.1 kv.2) p).dget k = p.dget k := by
  induction ws generalizing p with
  | nil => rfl
  | cons w ws ih =>
      simp only [List.foldl_cons]
      rw [ih _ (fun w' hw' => h w' (by simp [hw']))]
      exact dget_dset_ne _ _ _ _ (h w (by simp))

theorem dget_foldl_setProp_top (ws : List (String × JVal)) (r : JVal)
    (k : String) (h : k ≠ "properties") :
    (ws.foldl (fun r kv => setProp r kv.1 kv.2) r).dget k = r.dget k := by
  induction ws generalizing r with
  | nil => rfl
  | cons w ws ih =>
      simp only [List.foldl_cons]
      rw [ih, dget_setProp_top _ _ _ _ h]

theorem mem_keys_dsetL (kvs : List (String × JVal)) (k : String) (v : JVal)
    (x : String) (hx : x ∈ (dsetL kvs k v).map Prod.fst) :
    x ∈ kvs.map Prod.fst ∨ x = k := by
  induction kvs with
  | nil =>
      simp only [dsetL, List.map_cons, List.map_nil, List.mem_singleton] at hx
      exact Or.inr hx
  | cons hd tl ih =>
      obtain ⟨k1, v1⟩ := hd
      by_cases h1 : k1 = k
      · subst h1
        have hd : dsetL ((k1, v1) :: tl) k1 v = (k1, v) :: tl := by
          simp [dsetL]
        rw [hd] at hx
        simp only [List.map_cons, List.mem_cons] at hx ⊢
        tauto
      · simp only [dsetL, if_neg h1] at hx
        simp only [List.map_cons, List.mem_cons] at hx ⊢
        rcases hx with hx | hx
        · tauto
        · rcases ih hx with hh | hh <;> tauto

theorem nodup_dsetL (kvs : List (String × JVal)) (k : String) (v : JVal)
    (h : listNodup (kvs.map Prod.fst) = true) :
    listNodup ((dsetL kvs k v).map Prod.fst) = true := by
  induction kvs with
  | nil => simp [dsetL, listNodup]
  | cons hd tl ih =>
      obtain ⟨k1, v1⟩ := hd
      simp only [List.map_cons, listNodup, Bool.and_eq_true,
        Bool.not_eq_true'] at h
      obtain ⟨hnm, hnd⟩ := h
      have hnotmem : k1 ∉ tl.map Prod.fst := by simpa using hnm
      by_cases h1 : k1 = k
      · subst h1
        simp only [dsetL, if_pos rfl]
        simp only [List.map_cons, listNodup, Bool.and_eq_true,
          Bool.not_eq_true']
        exact ⟨by simpa using hnotmem, hnd⟩
      · simp only [dsetL, if_neg h1]
        simp only [List.map_cons, listNodup, Bool.and_eq_true,
          Bool.not_eq_true']
        constructor
        · have : k1 ∉ (dsetL tl k v).map Prod.fst := by
            intro hm
            rcases mem_keys_dsetL tl k v k1 hm with hh | hh
            · exact hnotmem hh
            · exact h1 hh
          simpa using this
        · exact ih hnd

theorem nodup_keys_dset (d : JVal) (k : String) (v : JVal)
    (h : listNodup d.keys = true) : listNodup (d.dset k v).keys = true := by
  cases d with
  | obj kvs => exact nodup_dsetL kvs k v h
  | null => exact h
  | bool b => exact h
  | int n => exact h
  | str s => exact h
  | arr xs => exact h

theorem nodup_foldl_dset (ws : List (String × JVal)) (p : JVal)
    (h : listNodup p.keys = true) :
    listNodup ((ws.foldl (fun p kv => p.dset kv.1 kv.2) p).keys) = true := by
  induction ws generalizing p with
  | nil => exact h
  | cons w ws ih =>
      simp only [List.foldl_cons]
      exact ih _ (nodup_keys_dset _ _ _ h)

theorem nodup_keys_foldl_setProp (ws : List (String × JVal)) (r : JVal)
    (h : listNodup r.keys = true) :
    listNodup ((ws.foldl (fun r kv => setProp r kv.1 kv.2) r).keys) =
      true := by
  induction ws generalizing r with
  | nil => exact h
  | cons w ws ih =>
      simp only [List.foldl_cons]
      refine ih _ ?_
      unfold setProp
      exact nodup_keys_dset _ _ _ h

theorem isObj_foldl_setProp (ws : List (String × JVal)) (r : JVal)
    (h : r.isObj = true) :
    ((ws.foldl (fun r kv => setProp r kv.1 kv.2) r)).isObj = true := by
  induction ws generalizing r with
  | nil => exact h
  | cons w ws ih =>
      simp only [List.foldl_cons]
      refine ih _ ?_
      unfold setProp
      cases r <;> simp_all [JVal.dset, JVal.isObj]

/-- Inverting a successful `object_to_json` call: the result is the pure
dict construction applied to some recursively converted pieces, and the
like/repost loop only ever writes the six like/follow/repost keys. -/
theorem object_to_json_ok_shape (C : Collab) (fuel : Nat) (opts : OOpts)
    (obj m : JVal) (htr : obj.truthy = true) (hobj : obj.isObj = true)
    (h : object_to_json C (fuel + 1) opts obj = .ok m) :
    ∃ (durationVal authorJ locJ inviteeJ : JVal)
      (commentsJ childrenJ photos category : List JVal)
      (contentHtml : String) (likeWrites : List (String × JVal)),
      (∀ w ∈ likeWrites, w.1 = "like-of" ∨ w.1 = "like" ∨ w.1 = "follow-of" ∨
        w.1 = "follow" ∨ w.1 = "repost-of" ∨ w.1 = "repost") ∧
      m = object_to_json_build opts obj (otj_primary opts obj)
        (otj_type opts obj) durationVal authorJ locJ commentsJ childrenJ
        contentHtml photos category inviteeJ likeWrites := by
  simp only [object_to_json, htr, hobj, Bool.and_self, Bool.not_true,
    Bool.false_eq_true, if_false] at h
  obtain ⟨durationVal, _, h⟩ := bind_ok h
  obtain ⟨authorJ, _, h⟩ := bind_ok h
  obtain ⟨locJ, _, h⟩ := bind_ok h
  obtain ⟨commentsJ, _, h⟩ := bind_ok h
  obtain ⟨childNotes, _, h⟩ := bind_ok h
  obtain ⟨childArts, _, h⟩ := bind_ok h
  obtain ⟨contentHtml, _, h⟩ := bind_ok h
  obtain ⟨photosAcc, _, h⟩ := bind_ok h
  obtain ⟨catOpts, _, h⟩ := bind_ok h
  obtain ⟨inviteeJ, _, h⟩ := bind_ok h
  obtain ⟨likeWrites, hlw, h⟩ := bind_ok h
  have hm : m = object_to_json_build opts obj (otj_primary opts obj)
      (otj_type opts obj) durationVal authorJ locJ commentsJ
      (childNotes ++ childArts) contentHtml photosAcc.2
      (catOpts.filterMap id) inviteeJ likeWrites := by
    simpa [Pure.pure, Except.pure] using h.symm
  refine ⟨durationVal, authorJ, locJ, inviteeJ, commentsJ,
    childNotes ++ childArts, photosAcc.2, catOpts.filterMap id, contentHtml,
    likeWrites, ?_, hm⟩
  intro w hw
  obtain ⟨tp, htp, hftp⟩ := mapM_ok_mem hlw w hw
  have hkey : w.1 = tp.2 ++ "-of" ∨ w.1 = tp.2 := by
    by_cases hc : otj_type opts obj = .str tp.1
    · rw [if_pos hc] at hftp
      obtain ⟨vals, _, hp⟩ := bind_ok hftp
      have : w = (tp.2 ++ "-of", JVal.arr vals) := by
        simpa [Pure.pure, Except.pure] using hp.symm
      exact Or.inl (by rw [this])
    · rw [if_neg hc] at hftp
      obtain ⟨vals, _, hp⟩ := bind_ok hftp
      have : w = (tp.2, JVal.arr vals) := by
        simpa [Pure.pure, Except.pure] using hp.symm
      exact Or.inr (by rw [this])
  simp only [List.mem_cons, List.not_mem_nil, or_false] at htp
  rcases htp with htp | htp | htp | htp <;> subst htp <;>
    rcases hkey with hk | hk <;> simp [hk]

theorem mem_ite_nil {α : Type} {c : Prop} [Decidable c] {l : List α} {x : α}
    (h : x ∈ if c then l else []) : x ∈ l := by
  split at h
  · exact h
  · simp at h

theorem exists_obj_of_isObj {v : JVal} (h : v.isObj = true) :
    ∃ kvs, v = .obj kvs := by
  cases v with
  | obj kvs => exact ⟨kvs, rfl⟩
  | null => simp [JVal.isObj] at h
  | bool b => simp [JVal.isObj] at h
  | int n => simp [JVal.isObj] at h
  | str s => simp [JVal.isObj] at h
  | arr xs => simp [JVal.isObj] at h

theorem notNullish_of_dget_ne_null (d : JVal) (k : String)
    (h : d.dget k ≠ .null) : d.isNullish = false := by
  cases d with
  | obj kvs =>
      cases kvs with
      | nil => simp [JVal.dget] at h
      | cons hd tl => simp [JVal.isNullish]
  | null => simp [JVal.dget] at h
  | bool b => simp [JVal.dget] at h
  | int n => simp [JVal.dget] at h
  | str s => simp [JVal.dget] at h
  | arr xs => simp [JVal.dget] at h

theorem ne_null_of_dget_ne_null (d : JVal) (k : String)
    (h : d.dget k ≠ .null) : d ≠ .null := by
  intro he
  subst he
  simp [JVal.dget] at h

theorem isObj_trim (kvs : List (String × JVal)) :
    (trim_nulls (.obj kvs)).isObj = true := by
  simp [trim_nulls, JVal.isObj]

theorem ret_dget_uid (opts : OOpts) (obj primary obj_type durationVal authorJ
    locJ inviteeJ : JVal) (commentsJ childrenJ photos category : List JVal)
    (contentHtml : String) (likeWrites : List (String × JVal))
    (hlw : ∀ w ∈ likeWrites, w.1 ≠ "uid") :
    ((object_to_json_ret opts obj primary obj_type durationVal authorJ locJ
        commentsJ childrenJ contentHtml photos category inviteeJ
        likeWrites).dget "properties").dget "uid" =
      .arr [JVal.pyOr (obj.dget "id") (.str "")] := by
  unfold object_to_json_ret
  rw [props_foldl_setProp, dget_foldl_dset_ne]
  · rfl
  · intro w hw
    simp only [List.append_assoc, List.mem_append, List.mem_cons,
      List.not_mem_nil, or_false, false_or] at hw
    rcases hw with (hw | hw) | hw | hw | hw | hw | hw | hw | hw
    · subst hw; simp
    · subst hw; simp
    · have := mem_ite_nil hw
      simp only [List.mem_singleton] at this
      subst this; simp
    · subst hw; simp
    · have hm := hw
      by_cases hc : (obj_type = .str "rsvp-yes" || obj_type = .str "rsvp-no"
          || obj_type = .str "rsvp-maybe") = true
      · rw [if_pos hc] at hm
        simp only [List.mem_singleton] at hm
        subst hm; simp
      · rw [if_neg hc] at hm
        by_cases hi : obj_type = .str "invite"
        · rw [if_pos hi] at hm
          simp only [List.mem_singleton] at hm
          subst hm; simp
        · rw [if_neg hi] at hm
          simp at hm
    · exact hlw w hw
    · have := mem_ite_nil hw
      simp only [List.mem_singleton] at this
      subst this; simp
    · have := mem_ite_nil hw
      simp only [List.mem_singleton] at this
      subst this; simp
    · have := mem_ite_nil hw
      simp only [List.mem_singleton] at this
      subst this; simp

theorem ret_dget_type (opts : OOpts) (obj primary obj_type durationVal
    authorJ locJ inviteeJ : JVal)
    (commentsJ childrenJ photos category : List JVal) (contentHtml : String)
    (likeWrites : List (String × JVal)) :
    (object_to_json_ret opts obj primary obj_type durationVal authorJ locJ
        commentsJ childrenJ contentHtml photos category inviteeJ
        likeWrites).dget "type" =
      (if opts.entry_class.isStr then
        match AS_TO_MF2_TYPE obj_type with
        | some l => .arr (l.map .str)
        | none => .arr [opts.entry_class]
       else .arr (JVal.pyIterate opts.entry_class)) := by
  unfold object_to_json_ret
  rw [dget_foldl_setProp_top _ _ _ (by decide)]
  rfl

theorem ret_nodup_top (opts : OOpts) (obj primary obj_type durationVal
    authorJ locJ inviteeJ : JVal)
    (commentsJ childrenJ photos category : List JVal) (contentHtml : String)
    (likeWrites : List (String × JVal)) :
    listNodup (object_to_json_ret opts obj primary obj_type durationVal
      authorJ locJ commentsJ childrenJ contentHtml photos category inviteeJ
      likeWrites).keys = true := by
  unfold object_to_json_ret
  apply nodup_keys_foldl_setProp
  rfl

theorem ret_nodup_props (opts : OOpts) (obj primary obj_type durationVal
    authorJ locJ inviteeJ : JVal)
    (commentsJ childrenJ photos category : List JVal) (contentHtml : String)
    (likeWrites : List (String × JVal)) :
    listNodup ((object_to_json_ret opts obj primary obj_type durationVal
      authorJ locJ commentsJ childrenJ contentHtml photos category inviteeJ
      likeWrites).dget "properties").keys = true := by
  unfold object_to_json_ret
  rw [props_foldl_setProp]
  apply nodup_foldl_dset
  rfl

theorem ret_isObj (opts : OOpts) (obj primary obj_type durationVal
    authorJ locJ inviteeJ : JVal)
    (commentsJ childrenJ photos category : List JVal) (contentHtml : String)
    (likeWrites : List (String × JVal)) :
    (object_to_json_ret opts obj primary obj_type durationVal authorJ locJ
      commentsJ childrenJ contentHtml photos category inviteeJ
      likeWrites).isObj = true := by
  unfold object_to_json_ret
  apply isObj_foldl_setProp
  rfl

/-- A successful default-options `object_to_json` on an object with a
non-empty string id produces an item whose `properties.uid` is exactly that
id, and the item is a non-empty dict. -/
theorem object_to_json_dflt_uid (C : Collab) (fuel : Nat) (obj m : JVal)
    (id : String) (htr : obj.truthy = true) (hobj : obj.isObj = true)
    (hid : obj.dget "id" = .str id) (hne : id ≠ "")
    (h : object_to_json C fuel OOpts.dflt obj = .ok m) :
    (m.dget "properties").dget "uid" = .arr [.str id] ∧
      m.truthy = true ∧ m.isObj = true ∧ m.dhas "properties" = true := by
  cases fuel with
  | zero => simp [object_to_json] at h
  | succ fuel =>
      obtain ⟨d, a, l, i, cm, ch, ph, cat, html, lw, hlk, hm⟩ :=
        object_to_json_ok_shape C fuel _ obj m htr hobj h
      have hlw' : ∀ w ∈ lw, w.1 ≠ "uid" := by
        intro w hwm
        rcases hlk w hwm with hk | hk | hk | hk | hk | hk <;> simp [hk]
      have huid0 := ret_dget_uid OOpts.dflt obj (otj_primary OOpts.dflt obj)
        (otj_type OOpts.dflt obj) d a l i cm ch ph cat html lw hlw'
      rw [hid] at huid0
      have hpy : JVal.pyOr (.str id) (.str "") = .str id := by
        simp [JVal.pyOr, JVal.truthy, hne]
      rw [hpy] at huid0
      have hndP := ret_nodup_props OOpts.dflt obj (otj_primary OOpts.dflt obj)
        (otj_type OOpts.dflt obj) d a l i cm ch ph cat html lw
      have hndT := ret_nodup_top OOpts.dflt obj (otj_primary OOpts.dflt obj)
        (otj_type OOpts.dflt obj) d a l i cm ch ph cat html lw
      have hisO := ret_isObj OOpts.dflt obj (otj_primary OOpts.dflt obj)
        (otj_type OOpts.dflt obj) d a l i cm ch ph cat html lw
      obtain ⟨kvs, hkvs⟩ := exists_obj_of_isObj hisO
      have hmtrim : m = trim_nulls (.obj kvs) := by
        rw [hm]
        unfold object_to_json_build
        rw [if_pos (show OOpts.dflt.trim_nulls = true from rfl), hkvs]
      have hPobj : ((JVal.obj kvs).dget "properties").isObj = true := by
        rw [← hkvs]
        exact isObj_of_dget_ne_null _ "uid" (by rw [huid0]; simp)
      obtain ⟨pkvs, hpkvs⟩ := exists_obj_of_isObj hPobj
      have hndP' : listNodup (pkvs.map Prod.fst) = true := by
        have := hndP
        rw [hkvs, hpkvs] at this
        exact this
      have htrimuid : (trim_nulls (.obj pkvs)).dget "uid" = .arr [.str id] := by
        rw [dget_trim_obj pkvs "uid" hndP']
        rw [← hpkvs, ← hkvs, huid0]
        have harr : trim_nulls (.arr [.str id]) = .arr [.str id] := by
          simp [trim_nulls, trimNullsList, JVal.isNullish, hne]
        rw [harr]
        rw [if_neg (by simp [JVal.isNullish])]
      have hndT' : listNodup (kvs.map Prod.fst) = true := by
        have := hndT
        rw [hkvs] at this
        exact this
      have hmp : m.dget "properties" = trim_nulls (.obj pkvs) := by
        rw [hmtrim, dget_trim_obj kvs "properties" hndT', hpkvs]
        rw [if_neg (by
          simp [notNullish_of_dget_ne_null _ "uid"
            (show (trim_nulls (JVal.obj pkvs)).dget "uid" ≠ JVal.null by
              rw [htrimuid]; simp)])]
      refine ⟨by rw [hmp, htrimuid], ?_, ?_, ?_⟩
      · exact truthy_of_dget_ne_null m "properties" (by
          rw [hmp]
          exact ne_null_of_dget_ne_null _ "uid" (by rw [htrimuid]; simp))
      · rw [hmtrim]
        exact isObj_trim kvs
      · exact dhas_of_dget_ne_null m "properties" (by
          rw [hmp]
          exact ne_null_of_dget_ne_null _ "uid" (by rw [htrimuid]; simp))

theorem isObj_dset (d : JVal) (k : String) (v : JVal) :
    (d.dset k v).isObj = d.isObj := by
  cases d <;> rfl

theorem isObj_dremove (d : JVal) (k : String) :
    (d.dremove k).isObj = d.isObj := by
  cases d <;> rfl

theorem listNodup_iff (l : List String) : listNodup l = true ↔ l.Nodup := by
  induction l with
  | nil => simp [listNodup]
  | cons x xs ih =>
      simp only [listNodup, Bool.and_eq_true, Bool.not_eq_true',
        List.nodup_cons, ih]
      constructor
      · rintro ⟨hc, hn⟩
        refine ⟨fun hm => ?_, hn⟩
        simp only [List.contains] at hc
        rw [List.elem_iff.mpr hm] at hc
        cases hc
      · rintro ⟨hm, hn⟩
        refine ⟨?_, hn⟩
        rcases hc : xs.contains x with _ | _
        · rfl
        · exact absurd (List.elem_iff.mp hc) hm

theorem listNodup_sublist {l1 l2 : List String} (hs : l1.Sublist l2)
    (h : listNodup l2 = true) : listNodup l1 = true :=
  (listNodup_iff l1).mpr (((listNodup_iff l2).mp h).sublist hs)

theorem nodup_keys_dremove (d : JVal) (k : String)
    (h : listNodup d.keys = true) : listNodup (d.dremove k).keys = true := by
  cases d with
  | obj kvs =>
      exact listNodup_sublist
        (List.Sublist.map Prod.fst (List.filter_sublist kvs)) h
  | null => exact h
  | bool b => exact h
  | int n => exact h
  | str s => exact h
  | arr xs => exact h

theorem jto_obj0_isObj (mf2 t v s l : JVal) (cs ts ats : List JVal) :
    (jto_obj0 mf2 t v s l cs ts ats).isObj = true := rfl

theorem jto_obj0_nodup (mf2 t v s l : JVal) (cs ts ats : List JVal) :
    listNodup (jto_obj0 mf2 t v s l cs ts ats).keys = true := rfl

theorem jto_obj0_dget_id (mf2 t v s l : JVal) (cs ts ats : List JVal) :
    (jto_obj0 mf2 t v s l cs ts ats).dget "id" =
      (jto_prop mf2).dget "uid" := rfl

theorem jto_obj0_dget_verb (mf2 t v s l : JVal) (cs ts ats : List JVal) :
    (jto_obj0 mf2 t v s l cs ts ats).dget "verb" = v := rfl

theorem jto_obj0_dget_url (mf2 t v s l : JVal) (cs ts ats : List JVal) :
    (jto_obj0 mf2 t v s l cs ts ats).dget "url" = jto_urlField mf2 := rfl

theorem jto_obj0_dget_urls (mf2 t v s l : JVal) (cs ts ats : List JVal) :
    (jto_obj0 mf2 t v s l cs ts ats).dget "urls" = jto_urlsField mf2 := rfl

theorem isObj_jto_obj2 (C : Collab) (mf2 obj1 : JVal) :
    (jto_obj2 C mf2 obj1).isObj = obj1.isObj := by
  simp only [jto_obj2]
  split
  · split
    · rw [isObj_dset]
    · rfl
  · rfl

theorem nodup_jto_obj2 (C : Collab) (mf2 obj1 : JVal)
    (h : listNodup obj1.keys = true) :
    listNodup (jto_obj2 C mf2 obj1).keys = true := by
  simp only [jto_obj2]
  split
  · split
    · exact nodup_keys_dset _ _ _ h
    · exact h
  · exact h

theorem dget_jto_obj2 (C : Collab) (mf2 obj1 : JVal) (k : String)
    (hk : k ≠ "location") :
    (jto_obj2 C mf2 obj1).dget k = obj1.dget k := by
  simp only [jto_obj2]
  split
  · split
    · exact dget_dset_ne _ _ _ _ (Ne.symm hk)
    · rfl
  · rfl

theorem dget_jto_core (C : Collab) (mf2 t v s l : JVal)
    (cs ts ats imgs : List JVal) (k : String)
    (hk1 : k ≠ "location") (hk2 : k ≠ "image") :
    (jto_obj2 C mf2 (jto_obj1 (jto_obj0 mf2 t v s l cs ts ats) imgs)).dget k
      = (jto_obj0 mf2 t v s l cs ts ats).dget k := by
  rw [dget_jto_obj2 _ _ _ _ hk1]
  simp only [jto_obj1]
  exact dget_dset_ne _ _ _ _ (Ne.symm hk2)

theorem isObj_jto_core (C : Collab) (mf2 t v s l : JVal)
    (cs ts ats imgs : List JVal) :
    (jto_obj2 C mf2
      (jto_obj1 (jto_obj0 mf2 t v s l cs ts ats) imgs)).isObj = true := by
  rw [isObj_jto_obj2]
  simp only [jto_obj1]
  rw [isObj_dset]
  rfl

theorem nodup_jto_core (C : Collab) (mf2 t v s l : JVal)
    (cs ts ats imgs : List JVal) :
    listNodup (jto_obj2 C mf2
      (jto_obj1 (jto_obj0 mf2 t v s l cs ts ats) imgs)).keys = true := by
  apply nodup_jto_obj2
  simp only [jto_obj1]
  exact nodup_keys_dset _ _ _ rfl

theorem jto_plain_result_shape (C : Collab) (mf2 t v s l author : JVal)
    (cs ts ats imgs : List JVal) :
    ∃ F : JVal,
      jto_plain_result mf2
          (jto_obj2 C mf2 (jto_obj1 (jto_obj0 mf2 t v s l cs ts ats) imgs))
          author = postprocess_object F ∧
        F.isObj = true ∧ listNodup F.keys = true ∧
        F.dget "id" = (jto_prop mf2).dget "uid" ∧
        F.dget "verb" = v ∧
        F.dget "url" = jto_urlField mf2 ∧
        F.dget "urls" = jto_urlsField mf2 := by
  refine ⟨_, rfl, ?_, ?_, ?_, ?_, ?_, ?_⟩
  · rw [isObj_dset, isObj_dset]
    exact isObj_jto_core C mf2 t v s l cs ts ats imgs
  · exact nodup_keys_dset _ _ _ (nodup_keys_dset _ _ _
      (nodup_jto_core C mf2 t v s l cs ts ats imgs))
  · rw [dget_dset_ne _ "author" "id" _ (by decide),
        dget_dset_ne _ "inReplyTo" "id" _ (by decide),
        dget_jto_core C mf2 t v s l cs ts ats imgs "id" (by decide)
          (by decide)]
    exact jto_obj0_dget_id mf2 t v s l cs ts ats
  · rw [dget_dset_ne _ "author" "verb" _ (by decide),
        dget_dset_ne _ "inReplyTo" "verb" _ (by decide),
        dget_jto_core C mf2 t v s l cs ts ats imgs "verb" (by decide)
          (by decide)]
    exact jto_obj0_dget_verb mf2 t v s l cs ts ats
  · rw [dget_dset_ne _ "author" "url" _ (by decide),
        dget_dset_ne _ "inReplyTo" "url" _ (by decide),
        dget_jto_core C mf2 t v s l cs ts ats imgs "url" (by decide)
          (by decide)]
    exact jto_obj0_dget_url mf2 t v s l cs ts ats
  · rw [dget_dset_ne _ "author" "urls" _ (by decide),
        dget_dset_ne _ "inReplyTo" "urls" _ (by decide),
        dget_jto_core C mf2 t v s l cs ts ats imgs "urls" (by decide)
          (by decide)]
    exact jto_obj0_dget_urls mf2 t v s l cs ts ats

theorem jto_obj3_shape (C : Collab) (mf2 t v s l objVal author : JVal)
    (cs ts ats imgs : List JVal) :
    ∃ F : JVal,
      postprocess_object (jto_obj3
          (jto_obj2 C mf2 (jto_obj1 (jto_obj0 mf2 t v s l cs ts ats) imgs))
          objVal author) = postprocess_object F ∧
        F.isObj = true ∧ listNodup F.keys = true ∧
        F.dget "id" = (jto_prop mf2).dget "uid" ∧
        F.dget "verb" = v ∧
        F.dget "url" = jto_urlField mf2 ∧
        F.dget "urls" = jto_urlsField mf2 := by
  refine ⟨_, rfl, ?_, ?_, ?_, ?_, ?_, ?_⟩
  · simp only [jto_obj3]
    rw [isObj_dset, isObj_dset]
    exact isObj_jto_core C mf2 t v s l cs ts ats imgs
  · simp only [jto_obj3]
    exact nodup_keys_dset _ _ _ (nodup_keys_dset _ _ _
      (nodup_jto_core C mf2 t v s l cs ts ats imgs))
  · simp only [jto_obj3]
    rw [dget_dset_ne _ "actor" "id" _ (by decide),
        dget_dset_ne _ "object" "id" _ (by decide),
        dget_jto_core C mf2 t v s l cs ts ats imgs "id" (by decide)
          (by decide)]
    exact jto_obj0_dget_id mf2 t v s l cs ts ats
  · simp only [jto_obj3]
    rw [dget_dset_ne _ "actor" "verb" _ (by decide),
        dget_dset_ne _ "object" "verb" _ (by decide),
        dget_jto_core C mf2 t v s l cs ts ats imgs "verb" (by decide)
          (by decide)]
    exact jto_obj0_dget_verb mf2 t v s l cs ts ats
  · simp only [jto_obj3]
    rw [dget_dset_ne _ "actor" "url" _ (by decide),
        dget_dset_ne _ "object" "url" _ (by decide),
        dget_jto_core C mf2 t v s l cs ts ats imgs "url" (by decide)
          (by decide)]
    exact jto_obj0_dget_url mf2 t v s l cs ts ats
  · simp only [jto_obj3]
    rw [dget_dset_ne _ "actor" "urls" _ (by decide),
        dget_dset_ne _ "object" "urls" _ (by decide),
        dget_jto_core C mf2 t v s l cs ts ats imgs "urls" (by decide)
          (by decide)]
    exact jto_obj0_dget_urls mf2 t v s l cs ts ats

theorem jto_tag_result_shape (C : Collab) (mf2 t v s l objVal author : JVal)
    (cs ts ats imgs : List JVal) :
    ∃ F : JVal,
      jto_tag_result (jto_obj4 mf2 (jto_obj3
          (jto_obj2 C mf2 (jto_obj1 (jto_obj0 mf2 t v s l cs ts ats) imgs))
          objVal author)) = postprocess_object F ∧
        F.isObj = true ∧ listNodup F.keys = true ∧
        F.dget "id" = (jto_prop mf2).dget "uid" ∧
        F.dget "verb" = v ∧
        F.dget "url" = jto_urlField mf2 ∧
        F.dget "urls" = jto_urlsField mf2 := by
  refine ⟨_, rfl, ?_, ?_, ?_, ?_, ?_, ?_⟩
  · rw [isObj_dset, isObj_dremove]
    simp only [jto_obj4, jto_obj3]
    rw [isObj_dset, isObj_dset, isObj_dset]
    exact isObj_jto_core C mf2 t v s l cs ts ats imgs
  · apply nodup_keys_dset
    apply nodup_keys_dremove
    simp only [jto_obj4, jto_obj3]
    exact nodup_keys_dset _ _ _ (nodup_keys_dset _ _ _
      (nodup_keys_dset _ _ _ (nodup_jto_core C mf2 t v s l cs ts ats imgs)))
  · rw [dget_dset_ne _ "object" "id" _ (by decide),
        dget_dremove_ne _ "tags" "id" (by decide)]
    simp only [jto_obj4, jto_obj3]
    rw [dget_dset_ne _ "target" "id" _ (by decide),
        dget_dset_ne _ "actor" "id" _ (by decide),
        dget_dset_ne _ "object" "id" _ (by decide),
        dget_jto_core C mf2 t v s l cs ts ats imgs "id" (by decide)
          (by decide)]
    exact jto_obj0_dget_id mf2 t v s l cs ts ats
  · rw [dget_dset_ne _ "object" "verb" _ (by decide),
        dget_dremove_ne _ "tags" "verb" (by decide)]
    simp only [jto_obj4, jto_obj3]
    rw [dget_dset_ne _ "target" "verb" _ (by decide),
        dget_dset_ne _ "actor" "verb" _ (by decide),
        dget_dset_ne _ "object" "verb" _ (by decide),
        dget_jto_core C mf2 t v s l cs ts ats imgs "verb" (by decide)
          (by decide)]
    exact jto_obj0_dget_verb mf2 t v s l cs ts ats
  · rw [dget_dset_ne _ "object" "url" _ (by decide),
        dget_dremove_ne _ "tags" "url" (by decide)]
    simp only [jto_obj4, jto_obj3]
    rw [dget_dset_ne _ "target" "url" _ (by decide),
        dget_dset_ne _ "actor" "url" _ (by decide),
        dget_dset_ne _ "object" "url" _ (by decide),
        dget_jto_core C mf2 t v s l cs ts ats imgs "url" (by decide)
          (by decide)]
    exact jto_obj0_dget_url mf2 t v s l cs ts ats
  · rw [dget_dset_ne _ "object" "urls" _ (by decide),
        dget_dremove_ne _ "tags" "urls" (by decide)]
    simp only [jto_obj4, jto_obj3]
    rw [dget_dset_ne _ "target" "urls" _ (by decide),
        dget_dset_ne _ "actor" "urls" _ (by decide),
        dget_dset_ne _ "object" "urls" _ (by decide),
        dget_jto_core C mf2 t v s l cs ts ats imgs "urls" (by decide)
          (by decide)]
    exact jto_obj0_dget_urls mf2 t v s l cs ts ats

theorem jto_activity_finish_shape (C : Collab)
    (mf2 t v s l author objVal r : JVal) (cs ts ats imgs : List JVal)
    (h : jto_activity_finish mf2
        (jto_obj2 C mf2 (jto_obj1 (jto_obj0 mf2 t v s l cs ts ats) imgs))
        author objVal v = .ok r) :
    ∃ F : JVal, r = postprocess_object F ∧ F.isObj = true ∧
      listNodup F.keys = true ∧
      F.dget "id" = (jto_prop mf2).dget "uid" ∧
      F.dget "verb" = v ∧
      F.dget "url" = jto_urlField mf2 ∧
      F.dget "urls" = jto_urlsField mf2 := by
  simp only [jto_activity_finish] at h
  by_cases hv : v = JVal.str "tag"
  · rw [if_pos hv] at h
    by_cases hg : ((jto_obj4 mf2 (jto_obj3
        (jto_obj2 C mf2 (jto_obj1 (jto_obj0 mf2 t v s l cs ts ats) imgs))
        objVal author)).dget "object").truthy = true
    · rw [if_pos hg] at h
      exact Except.noConfusion h
    · rw [if_neg hg] at h
      simp only [Pure.pure, Except.pure, Except.ok.injEq] at h
      subst h
      exact jto_tag_result_shape C mf2 _ _ _ _ _ _ _ _ _ _
  · rw [if_neg hv] at h
    simp only [Pure.pure, Except.pure, Except.ok.injEq] at h
    subst h
    exact jto_obj3_shape C mf2 _ _ _ _ _ _ _ _ _ _

theorem json_to_object_ok_shape (C : Collab) (fuel : Nat)
    (actor mf2 r : JVal)
    (htr : mf2.truthy = true) (hobj : mf2.isObj = true)
    (h : json_to_object C (fuel + 1) actor mf2 = .ok r) :
    ∃ F : JVal, r = postprocess_object F ∧ F.isObj = true ∧
      listNodup F.keys = true ∧
      F.dget "id" = (jto_prop mf2).dget "uid" ∧
      F.dget "verb" = jto_as_verb C mf2 ∧
      F.dget "url" = jto_urlField mf2 ∧
      F.dget "urls" = jto_urlsField mf2 := by
  simp only [json_to_object, htr, hobj, Bool.and_self, Bool.not_true,
    Bool.false_eq_true, if_false] at h
  obtain ⟨authorConv, _, h⟩ := bind_ok h
  obtain ⟨attachments0, _, h⟩ := bind_ok h
  obtain ⟨locJ, _, h⟩ := bind_ok h
  obtain ⟨commentsJ, _, h⟩ := bind_ok h
  obtain ⟨tagsJ, _, h⟩ := bind_ok h
  obtain ⟨imgAcc, _, h⟩ := bind_ok h
  by_cases hact : jto_as_type C mf2 = JVal.str "activity"
  · rw [if_pos hact] at h
    obtain ⟨objects, _, h⟩ := bind_ok h
    exact jto_activity_finish_shape C mf2 _ _ _ _ _ _ r _ _ _ _ h
  · rw [if_neg hact] at h
    simp only [Pure.pure, Except.pure, Except.ok.injEq] at h
    subst h
    exact jto_plain_result_shape C mf2 _ _ _ _ _ _ _ _ _

theorem json_to_object_fields (C : Collab) (fuel : Nat) (actor mf2 r : JVal)
    (htr : mf2.truthy = true) (hobj : mf2.isObj = true)
    (h : json_to_object C (fuel + 1) actor mf2 = .ok r) :
    r.dget "id" = (if (trim_nulls ((jto_prop mf2).dget "uid")).isNullish
        then JVal.null else trim_nulls ((jto_prop mf2).dget "uid")) ∧
      r.dget "verb" = (if (trim_nulls (jto_as_verb C mf2)).isNullish
        then JVal.null else trim_nulls (jto_as_verb C mf2)) ∧
      r.dget "url" = (if (trim_nulls (jto_urlField mf2)).isNullish
        then JVal.null else trim_nulls (jto_urlField mf2)) ∧
      r.dget "urls" = (if (trim_nulls (jto_urlsField mf2)).isNullish
        then JVal.null else trim_nulls (jto_urlsField mf2)) := by
  obtain ⟨F, hr, hO, hnd, hid, hv, hu, hus⟩ :=
    json_to_object_ok_shape C fuel actor mf2 r htr hobj h
  obtain ⟨kvs, hkvs⟩ := exists_obj_of_isObj hO
  rw [hkvs] at hid hv hu hus hnd
  subst hr
  rw [hkvs]
  show ((trim_nulls (JVal.obj kvs)).dget "id" = _) ∧
    ((trim_nulls (JVal.obj kvs)).dget "verb" = _) ∧
    ((trim_nulls (JVal.obj kvs)).dget "url" = _) ∧
    ((trim_nulls (JVal.obj kvs)).dget "urls" = _)
  refine ⟨?_, ?_, ?_, ?_⟩
  · rw [dget_trim_obj kvs "id" hnd, hid]
  · rw [dget_trim_obj kvs "verb" hnd, hv]
  · rw [dget_trim_obj kvs "url" hnd, hu]
  · rw [dget_trim_obj kvs "urls" hnd, hus]

theorem jto_prop_dget_cons (mf2 : JVal) (k : String) (x : JVal)
    (rest : List JVal)
    (hhas : mf2.dhas "properties" = true)
    (hk : (mf2.dget "properties").dget k = .arr (x :: rest)) :
    (jto_prop mf2).dget k = x := by
  have hmf2 : jto_mf2 mf2 = mf2 := by simp [jto_mf2, hhas]
  have hP : jto_props mf2 = mf2.dget "properties" := by
    rw [jto_props, hmf2]
  have hPO : (mf2.dget "properties").isObj = true :=
    isObj_of_dget_ne_null _ k (by rw [hk]; simp)
  obtain ⟨pkvs, hpkvs⟩ := exists_obj_of_isObj hPO
  rw [jto_prop, hP, hpkvs]
  rw [hpkvs] at hk
  rw [dget_first_props pkvs k (dhas_of_dget_ne_null _ _ (by rw [hk]; simp))]
  simp [get_first, get_list, hk]

theorem json_to_object_trivial (C : Collab) (fuel : Nat) (actor v : JVal)
    (h : (v.truthy && v.isObj) = false) :
    json_to_object C (fuel + 1) actor v = .ok (.obj []) := by
  simp only [json_to_object, h, Bool.not_false, if_true]
  rfl

theorem object_to_json_trivial (C : Collab) (fuel : Nat) (opts : OOpts)
    (v : JVal) (h : (v.truthy && v.isObj) = false) :
    object_to_json C (fuel + 1) opts v = .ok (.obj []) := by
  simp only [object_to_json, h, Bool.not_false, if_true]
  rfl

theorem dget_object_jto_obj4 (mf2 obj2 objVal author : JVal)
    (h : obj2.isObj = true) :
    (jto_obj4 mf2 (jto_obj3 obj2 objVal author)).dget "object" = objVal := by
  simp only [jto_obj4, jto_obj3]
  rw [dget_dset_ne _ "target" "object" _ (by decide),
      dget_dset_ne _ "actor" "object" _ (by decide),
      dget_dset_self _ _ _ h]

theorem jto_activity_finish_tag_raises (C : Collab)
    (mf2 t v s l author objVal : JVal) (cs ts ats imgs : List JVal)
    (hov : objVal.truthy = true) :
    jto_activity_finish mf2
        (jto_obj2 C mf2 (jto_obj1 (jto_obj0 mf2 t v s l cs ts ats) imgs))
        author objVal (.str "tag") = .error PyErr.notImpl := by
  simp only [jto_activity_finish, if_true]
  rw [if_pos (by
    rw [dget_object_jto_obj4 _ _ _ _ (isObj_jto_core C mf2 t v s l cs ts
      ats imgs)]
    exact hov)]
  rfl

theorem str_length_zero (a : String) (h : a.length = 0) : a = "" := by
  cases a with
  | mk data =>
      cases data with
      | nil => rfl
      | cons c cs => simp [String.length] at h

theorem str_append_ne_empty (a b : String) (ha : a ≠ "") : a ++ b ≠ "" := by
  intro h
  have h2 := congrArg String.length h
  rw [String.length_append] at h2
  simp at h2
  exact ha (str_length_zero a h2.1)

theorem trimNullsList_wrap (us : List String) (h : ∀ u ∈ us, u ≠ "") :
    trimNullsList (us.map (fun u => JVal.obj [("value", .str u)])) =
      us.map (fun u => JVal.obj [("value", .str u)]) := by
  induction us with
  | nil => simp [trimNullsList]
  | cons u rest ih =>
      have hu : u ≠ "" := h u (by simp)
      have htv : trim_nulls (JVal.obj [("value", JVal.str u)]) =
          JVal.obj [("value", JVal.str u)] := by
        simp [trim_nulls, trimNullsKVs, JVal.isNullish, hu]
      simp only [List.map_cons, trimNullsList, htv]
      rw [if_neg (by simp [JVal.isNullish])]
      rw [ih (fun v hv => h v (by simp [hv]))]

theorem object_to_json_type_field (C : Collab) (fuel : Nat) (opts : OOpts)
    (obj m : JVal) (htr : obj.truthy = true) (hobj : obj.isObj = true)
    (htrim : opts.trim_nulls = true)
    (h : object_to_json C (fuel + 1) opts obj = .ok m) :
    m.dget "type" =
      (if (trim_nulls (otj_type_value opts obj)).isNullish then JVal.null
       else trim_nulls (otj_type_value opts obj)) := by
  obtain ⟨d, a, l, i, cm, ch, ph, cat, html, lw, hlk, hm⟩ :=
    object_to_json_ok_shape C fuel opts obj m htr hobj h
  have hdg : (object_to_json_ret opts obj (otj_primary opts obj)
      (otj_type opts obj) d a l cm ch html ph cat i
      lw).dget "type" = otj_type_value opts obj :=
    ret_dget_type opts obj (otj_primary opts obj) (otj_type opts obj)
      d a l i cm ch ph cat html lw
  have hnd := ret_nodup_top opts obj (otj_primary opts obj)
    (otj_type opts obj) d a l i cm ch ph cat html lw
  have hisO := ret_isObj opts obj (otj_primary opts obj)
    (otj_type opts obj) d a l i cm ch ph cat html lw
  obtain ⟨kvs, hkvs⟩ := exists_obj_of_isObj hisO
  have hmtrim : m = trim_nulls (.obj kvs) := by
    rw [hm]
    unfold object_to_json_build
    rw [if_pos htrim, hkvs]
  rw [hkvs] at hdg hnd
  have hnd2 : listNodup (kvs.map Prod.fst) = true := hnd
  rw [hmtrim, dget_trim_obj kvs "type" hnd2, hdg]

end Lemmas

/-- C1 (counterexample): with the second mention tag at startIndex 13 the
rendered markup is not as claimed — the second anchor wraps no text and
`@b` stays outside it, because the 12-character content has no range at
offset 13. -/
theorem c1_counterexample :
    render_content trivCollab 10 ROpts.dflt (c1obj 13) =
      .ok "hi <a href=\"http://u1\">@a</a> and @b<a href=\"http://u2\"></a>" ∧
    strHasSub
      "hi <a href=\"http://u1\">@a</a> and @b<a href=\"http://u2\"></a>"
      "<a href=\"http://u2\">@b</a>" = false :=
  ⟨rfl, rfl⟩

/-- C1: rendering the content `hi @a and @b` with the two inline mention
tags at startIndex 3 and startIndex 10 (the code-point offset of `@b`)
splices exactly the two anchors, in order, around `@a` and `@b` while
preserving every other character. -/
theorem c1_mention_splice :
    render_content trivCollab 10 ROpts.dflt (c1obj 10) =
      .ok "hi <a href=\"http://u1\">@a</a> and <a href=\"http://u2\">@b</a>" :=
  rfl

/-- C2 (counterexample): a well-formed AS1 tag activity with a non-null id
round-trips to a NotImplementedError instead of an object, so the
identifier round-trip does not hold for every AS1 object with a non-null
id. -/
theorem c2_counterexample :
    WFas1 c2tag = true ∧ c2tag.dget "id" = .str "tag:x" ∧
    (object_to_json trivCollab 10 OOpts.dflt c2tag >>=
      fun m => json_to_object trivCollab 10 .null m) =
        .error PyErr.notImpl :=
  ⟨by decide, rfl, rfl⟩

/-- C2: for every AS1 object with a non-empty string id, when the default
MF2 conversion and the conversion back both return an object, the produced
AS1 object carries the same id. -/
theorem c2_roundtrip_id (C : Collab) (fuel1 fuel2 : Nat) (obj m r : JVal)
    (id : String) (htr : obj.truthy = true) (hobj : obj.isObj = true)
    (hid : obj.dget "id" = .str id) (hne : id ≠ "")
    (h1 : object_to_json C fuel1 OOpts.dflt obj = .ok m)
    (h2 : json_to_object C (fuel2 + 1) .null m = .ok r) :
    r.dget "id" = .str id := by
  obtain ⟨huid, hmtr, hmO, hmhas⟩ :=
    object_to_json_dflt_uid C fuel1 obj m id htr hobj hid hne h1
  obtain ⟨hidr, _, _, _⟩ :=
    json_to_object_fields C fuel2 .null m r hmtr hmO h2
  have hpu : (jto_prop m).dget "uid" = .str id :=
    jto_prop_dget_cons m "uid" (.str id) [] hmhas huid
  rw [hpu] at hidr
  rw [hidr, show trim_nulls (JVal.str id) = JVal.str id from rfl]
  rw [if_neg (by simp [JVal.isNullish, hne])]

/-- C2 (witness): the round trip preserves the id of the concrete note. -/
theorem c2_witness :
    c2note.dget "id" = .str "tag:n1" ∧
    object_to_json trivCollab 10 OOpts.dflt c2note = .ok c2mf2 ∧
    json_to_object trivCollab 10 .null c2mf2 = .ok c2as1 ∧
    c2as1.dget "id" = .str "tag:n1" :=
  ⟨rfl, rfl, rfl,
   c2_roundtrip_id trivCollab 10 9 c2note c2mf2 c2as1 "tag:n1" rfl rfl rfl
     (by decide) rfl rfl⟩

/-- C3: converting an object whose stream duration is the non-integer
string `PT1M` raises inside `object_to_json` for every collaborator
valuation, fuel and option set — the call `logging(...)` at
microformats2.py:227 invokes the module object and is a TypeError, so the
malformed field is propagated as an exception instead of being logged and
ignored. -/
theorem c3_duration_crash (C : Collab) (fuel : Nat) (opts : OOpts) :
    object_to_json C (fuel + 1) opts c3obj = .error PyErr.loggingCall := rfl

/-- C4 (counterexample): `json_to_html` mutates its input — on the rsvp
item the first `name` value is overwritten in place (microformats2.py:700
writes through the shallow-copied props into the shared list), so the
input is not byte-identical after the call. -/
theorem c4_counterexample :
    json_to_html_after 10 c4item = c4itemAfter ∧ c4itemAfter ≠ c4item :=
  ⟨rfl, by decide⟩

/-- C4: `json_to_object` leaves every input unchanged (it shallow-copies
before its setdefault and writes only fresh containers), while
`json_to_html` rewrites an rsvp input item's first name value in place to
the rendered p-rsvp data element. -/
theorem c4_purity :
    (∀ v : JVal, json_to_object_after v = v) ∧
    json_to_html_after 10 c4item = c4itemAfter :=
  ⟨fun _ => rfl, rfl⟩

/-- C5 (counterexample): the NotImplementedError fires for an item that
combines `tag-of` with `like-of` and carries no `in-reply-to` at all, so
the raise condition is not the claimed combination of `in-reply-to` and
`tag-of`. -/
theorem c5_counterexample :
    json_to_object trivCollab 5 .null (c5item "http://t/x" "http://l/1") =
      .error PyErr.notImpl ∧
    ((c5item "http://t/x" "http://l/1").dget "properties").dhas
      "in-reply-to" = false :=
  ⟨rfl, rfl⟩

/-- C5: `json_to_object` raises the not-implemented condition on every
item that combines `tag-of` with a `like-of` target — for every
collaborator valuation, fuel, actor and any two target strings, and with
no `in-reply-to` on the item. -/
theorem c5_tag_target_raises (C : Collab) (fuel : Nat) (actor : JVal)
    (t u : String) :
    json_to_object C (fuel + 2) actor (c5item t u) =
      .error PyErr.notImpl := by
  simp only [json_to_object]
  rw [if_neg (by simp [c5item, JVal.truthy, JVal.isObj])]
  rw [if_neg (show ¬((((jto_prop (c5item t u)).dget "author").truthy &&
    ((jto_prop (c5item t u)).dget "author").isObj) = true) by
      rw [show (jto_prop (c5item t u)).dget "author" = JVal.null from rfl]
      simp [JVal.truthy, JVal.isObj])]
  simp only [pure_bind]
  simp only [
    show (jto_mf2 (c5item t u)).dgetD "children" (.arr []) = .arr []
      from rfl,
    show (jto_props (c5item t u)).dgetD "quotation-of" (.arr []) = .arr []
      from rfl,
    show (jto_prop (c5item t u)).dget "location" = JVal.null from rfl,
    show (jto_props (c5item t u)).dgetD "comment" (.arr []) = .arr []
      from rfl,
    show (jto_props (c5item t u)).dgetD "category" (.arr []) = .arr []
      from rfl,
    show (jto_props (c5item t u)).dgetD "photo" (.arr []) = .arr []
      from rfl,
    show (jto_props (c5item t u)).dgetD "featured" (.arr []) = .arr []
      from rfl,
    show JVal.pyIterate (JVal.arr []) = ([] : List JVal) from rfl,
    List.append_nil, List.nil_append, List.filter_nil,
    List.mapM_nil, List.foldlM_nil, pure_bind]
  rw [if_pos (show (!(JVal.null.truthy && JVal.null.isObj)) = true
    from rfl)]
  simp only [pure_bind]
  rw [if_pos (show jto_as_type C (c5item t u) = JVal.str "activity"
    from rfl)]
  simp only [show (["follow-of", "like", "like-of", "repost", "repost-of",
    "in-reply-to", "invitee"] : List String).flatMap
      (fun f => JVal.pyIterate ((jto_props (c5item t u)).dgetD f
        (.arr []))) = [JVal.str u] from rfl,
    List.foldlM_cons, List.foldlM_nil]
  rw [if_neg (show ¬((JVal.str u).isObj = true) by simp [JVal.isObj])]
  simp only [pure_bind, List.not_mem_nil, if_false, List.nil_append,
    show (get_string_urls ((jto_props (c5item t u)).dgetD "bookmark-of"
      (.arr []))) = ([] : List String) from rfl,
    List.map_nil, List.append_nil]
  rw [show jto_as_verb C (c5item t u) = JVal.str "tag" from rfl]
  exact jto_activity_finish_tag_raises C (c5item t u) _ _ _ _ _ _ _ _ _ _
    (by simp [JVal.truthy, List.headI])

/-- C6 (counterexample): the synthesized caption is the lowercase `likes
this.`; the claimed capitalized `Likes this.` does not occur in the
synthesized content. -/
theorem c6_counterexample :
    object_to_json trivCollab 10 OOpts.dflt c6obj = .ok c6mf2 ∧
    (c6mf2.dget "properties").dget "content" =
      .arr [.obj [("html", .str "<a href=\"http://x/1\">likes this.</a>")]] ∧
    strHasSub "<a href=\"http://x/1\">likes this.</a>" "Likes this." =
      false :=
  ⟨rfl, rfl, rfl⟩

set_option maxRecDepth 16384 in
/-- C6: the like activity converts to an MF2 item whose like-of is the
bare URL, whose synthesized content is the lowercase `likes this.` anchor
to that URL, and whose rendered HTML contains the u-like-of anchor. -/
theorem c6_like_activity :
    object_to_json trivCollab 10 OOpts.dflt c6obj = .ok c6mf2 ∧
    (c6mf2.dget "properties").dget "like-of" = .arr [.str "http://x/1"] ∧
    (c6mf2.dget "properties").dget "content" =
      .arr [.obj [("html", .str "<a href=\"http://x/1\">likes this.</a>")]] ∧
    (json_to_html trivCollab 10 c6mf2 []).map
      (fun h => strHasSub h
        "<a class=\"u-like-of\" href=\"http://x/1\"></a>") = .ok true :=
  ⟨rfl, rfl, rfl, rfl⟩

/-- C7: an MF2 item whose rsvp property has non-empty first value v
converts, whenever `json_to_object` returns an object, to an AS1 object
whose verb is exactly `rsvp-v`. -/
theorem c7_rsvp_verb (C : Collab) (fuel : Nat) (actor mf2 r : JVal)
    (v : String) (rest : List JVal)
    (htr : mf2.truthy = true) (hobj : mf2.isObj = true)
    (hhas : mf2.dhas "properties" = true)
    (hrsvp : (mf2.dget "properties").dget "rsvp" = .arr (.str v :: rest))
    (hv : v ≠ "")
    (h : json_to_object C (fuel + 1) actor mf2 = .ok r) :
    r.dget "verb" = .str ("rsvp-" ++ v) := by
  obtain ⟨_, hverb, _, _⟩ :=
    json_to_object_fields C fuel actor mf2 r htr hobj h
  have hpr : jto_rsvp mf2 = .str v :=
    jto_prop_dget_cons mf2 "rsvp" (.str v) rest hhas hrsvp
  have hav : jto_as_verb C mf2 = .str ("rsvp-" ++ v) := by
    simp only [jto_as_verb, hpr]
    rw [if_pos (by simp [JVal.truthy, hv])]
    rfl
  rw [hav] at hverb
  rw [hverb,
    show trim_nulls (JVal.str ("rsvp-" ++ v)) = JVal.str ("rsvp-" ++ v)
      from rfl]
  rw [if_neg (by
    simp only [JVal.isNullish, decide_eq_true_eq]
    exact str_append_ne_empty "rsvp-" v (by decide))]

/-- C7 (witness): the rsvp `yes` item converts to verb `rsvp-yes`. -/
theorem c7_witness :
    (c7item.dget "properties").dget "rsvp" = .arr [.str "yes"] ∧
    json_to_object trivCollab 10 .null c7item = .ok c7as1 ∧
    c7as1.dget "verb" = .str ("rsvp-" ++ "yes") :=
  ⟨rfl, rfl,
   c7_rsvp_verb trivCollab 9 .null c7item c7as1 "yes" [] rfl rfl rfl rfl
     (by decide) rfl⟩

/-- C8 (counterexample): with a sequence-valued entry_class the event
object's type is the entry_class sequence, not the table entry
`h-event` — the claimed table mapping does not apply for sequence
entry_class values. -/
theorem c8_counterexample :
    (object_to_json trivCollab 10 c8opts c8event).map
      (fun m => m.dget "type") = .ok (.arr [.str "h-cite"]) ∧
    (JVal.arr [.str "h-cite"] : JVal) ≠ .arr [.str "h-event"] :=
  ⟨rfl, by decide⟩

/-- C8: the item's type is the trim-projection of `otj_type_value`, which
consults the `AS_TO_MF2_TYPE` table only when entry_class is a string;
when entry_class is a sequence the whole expression is the sequence
itself, whatever the object's type — Python conditional-expression
precedence bypasses the table. -/
theorem c8_type_entry_class (C : Collab) (fuel : Nat) (opts : OOpts)
    (obj m : JVal) (htr : obj.truthy = true) (hobj : obj.isObj = true)
    (htrim : opts.trim_nulls = true)
    (h : object_to_json C (fuel + 1) opts obj = .ok m) :
    m.dget "type" =
      (if (trim_nulls (otj_type_value opts obj)).isNullish then JVal.null
       else trim_nulls (otj_type_value opts obj)) ∧
    (opts.entry_class.isStr = false →
      otj_type_value opts obj = .arr (JVal.pyIterate opts.entry_class)) :=
  ⟨object_to_json_type_field C fuel opts obj m htr hobj htrim h,
   fun hns => by simp [otj_type_value, hns]⟩

/-- C8 (witness): the event object under the sequence entry_class. -/
theorem c8_witness :
    c8mf2.dget "type" =
      (if (trim_nulls (otj_type_value c8opts c8event)).isNullish then
        JVal.null else trim_nulls (otj_type_value c8opts c8event)) ∧
    (c8opts.entry_class.isStr = false →
      otj_type_value c8opts c8event =
        .arr (JVal.pyIterate c8opts.entry_class)) :=
  c8_type_entry_class trivCollab 9 c8opts c8event c8mf2 rfl rfl rfl rfl

/-- C9: a null, false, empty or otherwise non-dict input makes both
conversions return an empty dict rather than raise, for every collaborator
valuation, option set, actor and fuel. -/
theorem c9_empty_input (C : Collab) (fuel : Nat) (opts : OOpts)
    (actor v : JVal) (h : (v.truthy && v.isObj) = false) :
    object_to_json C (fuel + 1) opts v = .ok (.obj []) ∧
    json_to_object C (fuel + 1) actor v = .ok (.obj []) :=
  ⟨object_to_json_trivial C fuel opts v h,
   json_to_object_trivial C fuel actor v h⟩

/-- C9 (witness): both conversions on null input. -/
theorem c9_witness :
    ((JVal.null.truthy && JVal.null.isObj) = false) ∧
    (object_to_json trivCollab 1 OOpts.dflt .null = .ok (.obj []) ∧
     json_to_object trivCollab 1 .null .null = .ok (.obj [])) :=
  ⟨rfl, c9_empty_input trivCollab 0 OOpts.dflt .null .null rfl⟩

/-- C10 (counterexample): when the single extracted URL is the empty
string, the produced object's url field is absent (null), not that first
extracted URL. -/
theorem c10_counterexample :
    jto_urlsE c10item0 = [""] ∧
    json_to_object trivCollab 10 .null c10item0 = .ok c10as0 ∧
    c10as0.dget "url" = .null :=
  ⟨rfl, rfl, rfl⟩

/-- C10: whenever every extracted URL is non-empty, the produced object's
url field is the first extracted URL (null when there is none) and its
urls field holds the wrapped list exactly when two or more URLs were
extracted. -/
theorem c10_url_urls (C : Collab) (fuel : Nat) (actor mf2 r : JVal)
    (htr : mf2.truthy = true) (hobj : mf2.isObj = true)
    (hne : ∀ u ∈ jto_urlsE mf2, u ≠ "")
    (h : json_to_object C (fuel + 1) actor mf2 = .ok r) :
    r.dget "url" = jto_urlField mf2 ∧
    r.dget "urls" = jto_urlsField mf2 := by
  obtain ⟨_, _, hu, hus⟩ :=
    json_to_object_fields C fuel actor mf2 r htr hobj h
  constructor
  · rw [hu]
    cases he : jto_urlsE mf2 with
    | nil =>
        rw [show jto_urlField mf2 = JVal.null from by
          simp [jto_urlField, he]]
        simp [trim_nulls, JVal.isNullish]
    | cons u0 us =>
        have hne0 : u0 ≠ "" := hne u0 (by rw [he]; simp)
        rw [show jto_urlField mf2 = JVal.str u0 from by
          simp [jto_urlField, he]]
        rw [show trim_nulls (JVal.str u0) = JVal.str u0 from rfl]
        rw [if_neg (by simp [JVal.isNullish, hne0])]
  · rw [hus]
    by_cases hlen : (jto_urlsE mf2).length > 1
    · rw [show jto_urlsField mf2 = .arr ((jto_urlsE mf2).map
        (fun u => JVal.obj [("value", .str u)])) from by
          simp [jto_urlsField, hlen]]
      rw [show trim_nulls (JVal.arr ((jto_urlsE mf2).map
        (fun u => JVal.obj [("value", .str u)]))) =
        JVal.arr (trimNullsList ((jto_urlsE mf2).map
          (fun u => JVal.obj [("value", .str u)]))) from rfl]
      rw [trimNullsList_wrap (jto_urlsE mf2) hne]
      rw [if_neg (by
        cases he : jto_urlsE mf2 with
        | nil => rw [he] at hlen; simp at hlen
        | cons u0 us => simp [JVal.isNullish])]
    · rw [show jto_urlsField mf2 = JVal.null from by
        simp [jto_urlsField, hlen]]
      simp [trim_nulls, JVal.isNullish]

/-- C10 (witness): the two-URL item. -/
theorem c10_witness :
    jto_urlsE c10item2 = ["http://a/1", "http://a/2"] ∧
    json_to_object trivCollab 10 .null c10item2 = .ok c10as2 ∧
    (c10as2.dget "url" = jto_urlField c10item2 ∧
     c10as2.dget "urls" = jto_urlsField c10item2) :=
  ⟨rfl, rfl,
   c10_url_urls trivCollab 9 .null c10item2 c10as2 rfl rfl (by decide) rfl⟩

end Granary
